import Mathlib

/-!
Shallow embedding of the Swiss bracket engine (`swisssystem.go`) and the
Monte-Carlo harness (`simulate.go`) of the major-pickems simulator, together
with theorems settling the frozen claims about them.

Modelling conventions:
* Go slices indexed by seed become Lean `List`s of the same length
  (`maxSeed+1`), read with `getD` and written with `List.set`.  The program
  only ever accesses indices `0 ≤ seed ≤ maxSeed`, where the two semantics
  agree; an out-of-range access would panic in Go.
* `rng.Float64()` draws are modelled as an infinite stream `rng : ℕ → ℚ`
  together with a cursor `rngIdx`; each draw reads `rng rngIdx` and advances
  the cursor.  Win probabilities are rationals; only the comparison
  `draw < p` is ever used, so the exact carrier of "float" is irrelevant.
* `winProb` / `ComputeProbabilities` (floating point `math.Pow`) are outside
  the claims; the probability matrix is a parameter, exactly as the Go
  constructor `NewSwissSystem(teams, sigma, rng, prob)` receives it.
* `Team.Name` and `Team.Rating` never influence the engine once the
  probability matrix is given, so a team is represented by its seed.
* The `panic` in `pairGroup`'s sort comparator is modelled by `Option`:
  `none` is the fatal path.  Go's `sort.Slice` invokes the comparator exactly
  when the slice has at least two elements.
-/

namespace MajorSim

structure Team where
  Seed : ℕ
deriving DecidableEq, Repr

structure Record where
  Wins : ℕ
  Losses : ℕ
deriving DecidableEq, Repr

/-- `func (r *Record) Diff() int { return r.Wins - r.Losses }` -/
def Record.Diff (r : Record) : ℤ := (r.Wins : ℤ) - (r.Losses : ℤ)

structure SwissSystem where
  Teams : List Team
  records : List Record
  Faced : List (List ℕ)
  Remaining : List Bool
  Finished : List Bool
  Round : ℕ
  CurrentBuchholz : Option (List ℤ)
  prob : ℕ → ℕ → ℚ
  rng : ℕ → ℚ
  rngIdx : ℕ

def seedsOf (ts : List Team) : List ℕ := ts.map Team.Seed

/-- Seed-indexed reads, `getD` with the zero value of the slice element. -/
def recOf (ss : SwissSystem) (seed : ℕ) : Record := ss.records.getD seed ⟨0, 0⟩

def facedOf (ss : SwissSystem) (seed : ℕ) : List ℕ := ss.Faced.getD seed []

def remOf (ss : SwissSystem) (seed : ℕ) : Bool := ss.Remaining.getD seed false

def finOf (ss : SwissSystem) (seed : ℕ) : Bool := ss.Finished.getD seed false

/-- `NewSwissSystem`: allocate all slices with length `maxSeed+1`, zero
records, empty faced sets, every listed team active, round counter 0, no
Buchholz snapshot. -/
def NewSwissSystem (teams : List Team) (prob : ℕ → ℕ → ℚ) (rng : ℕ → ℚ) :
    SwissSystem :=
  let maxSeed := teams.foldl (fun m t => max m t.Seed) 0
  let limit := maxSeed + 1
  { Teams := teams
    records := List.replicate limit ⟨0, 0⟩
    Faced := List.replicate limit []
    Remaining := teams.foldl (fun rem t => rem.set t.Seed true)
      (List.replicate limit false)
    Finished := List.replicate limit false
    Round := 0
    CurrentBuchholz := none
    prob := prob
    rng := rng
    rngIdx := 0 }

/-- `Reset`: the Go loop runs over `ss.Teams` and clears exactly those
seeds; the round counter and the Buchholz snapshot are cleared, the random
stream continues where it was. -/
def Reset (ss : SwissSystem) : SwissSystem :=
  { ss with
    records := ss.Teams.foldl (fun l t => l.set t.Seed ⟨0, 0⟩) ss.records
    Faced := ss.Teams.foldl (fun l t => l.set t.Seed []) ss.Faced
    Remaining := ss.Teams.foldl (fun l t => l.set t.Seed true) ss.Remaining
    Finished := ss.Teams.foldl (fun l t => l.set t.Seed false) ss.Finished
    Round := 0
    CurrentBuchholz := none }

/-- `CalculateBuchholz`: sum of the current differentials of all opponents
in the faced list.  Written over the raw slices so that being independent
of the engine's other fields is visible to unification. -/
def buchholzOf (faced : List (List ℕ)) (recs : List Record) (seed : ℕ) : ℤ :=
  (faced.getD seed []).foldl
    (fun acc oppSeed => acc + (recs.getD oppSeed ⟨0, 0⟩).Diff) 0

def CalculateBuchholz (ss : SwissSystem) (seed : ℕ) : ℤ :=
  buchholzOf ss.Faced ss.records seed

def winRec (r : Record) : Record := ⟨r.Wins + 1, r.Losses⟩

def loseRec (r : Record) : Record := ⟨r.Wins, r.Losses + 1⟩

/-- The best-of-three loop `for aWins < 2 && bWins < 2 { ... }`, written
with structural fuel (3 iterations always suffice from `(0, 0)`; we pass
4).  Returns the final `(aWins, bWins)` and the advanced stream cursor. -/
def bo3Loop (p : ℚ) (rng : ℕ → ℚ) : ℕ → ℕ → ℕ → ℕ → ℕ × ℕ × ℕ
  | 0, aWins, bWins, idx => (aWins, bWins, idx)
  | fuel + 1, aWins, bWins, idx =>
    if aWins < 2 ∧ bWins < 2 then
      if rng idx < p then bo3Loop p rng fuel (aWins + 1) bWins (idx + 1)
      else bo3Loop p rng fuel aWins (bWins + 1) (idx + 1)
    else (aWins, bWins, idx)

/-- The format decision of `SimulateMatch`.  Note the source decides it
from team `a`'s record alone: `isBO3 := recA.Wins == 2 || recA.Losses == 2`. -/
def matchIsBO3 (ss : SwissSystem) (a : Team) : Bool :=
  (recOf ss a.Seed).Wins == 2 || (recOf ss a.Seed).Losses == 2

/-- The random part of `SimulateMatch`: draw the game outcomes in the
chosen format, returning `teamAWins` and the advanced stream cursor. -/
def matchDraw (ss : SwissSystem) (a b : Team) : Bool × ℕ :=
  let p := ss.prob a.Seed b.Seed
  if matchIsBO3 ss a then
    let r := bo3Loop p ss.rng 4 0 0 ss.rngIdx
    (decide (r.2.1 < r.1), r.2.2)
  else
    (decide (ss.rng ss.rngIdx < p), ss.rngIdx + 1)

/-- The elimination sweep of `SimulateMatch`: `for _, t := range []*Team{a, b}`
checks the updated record and, on 3 wins or 3 losses, clears `Remaining` and
sets `Finished`. -/
def flagsFold (rlist : List Record) (a b : Team)
    (RF : List Bool × List Bool) : List Bool × List Bool :=
  [a, b].foldl
    (fun rf t =>
      let r := rlist.getD t.Seed ⟨0, 0⟩
      if r.Wins == 3 || r.Losses == 3 then
        (rf.1.set t.Seed false, rf.2.set t.Seed true)
      else rf) RF

/-- The state updates of `SimulateMatch` once `teamAWins` is known: winner
and loser records, mutual faced-list append, and — only in the best-of-three
branch — the elimination sweep over `[a, b]`.  Record and faced updates are
sequential writes to the seed-indexed slices, matching the Go pointer
semantics. -/
def applyMatchResult (ss : SwissSystem) (a b : Team) (teamAWins : Bool)
    (idx : ℕ) : SwissSystem :=
  let idxA := a.Seed
  let idxB := b.Seed
  let records1 :=
    if teamAWins then
      let f1 := ss.records.set idxA (winRec (recOf ss idxA))
      f1.set idxB (loseRec (f1.getD idxB ⟨0, 0⟩))
    else
      let f1 := ss.records.set idxA (loseRec (recOf ss idxA))
      f1.set idxB (winRec (f1.getD idxB ⟨0, 0⟩))
  let faced1 :=
    let g1 := ss.Faced.set idxA (facedOf ss idxA ++ [idxB])
    g1.set idxB (g1.getD idxB [] ++ [idxA])
  let flags :=
    if matchIsBO3 ss a then flagsFold records1 a b (ss.Remaining, ss.Finished)
    else (ss.Remaining, ss.Finished)
  { ss with
    records := records1
    Faced := faced1
    Remaining := flags.1
    Finished := flags.2
    rngIdx := idx }

/-- `SimulateMatch`: decide the format, draw the outcome, update state.
The elimination check runs only in the `isBO3` branch, exactly as in the
source. -/
def SimulateMatch (ss : SwissSystem) (a b : Team) : SwissSystem :=
  let res := matchDraw ss a b
  applyMatchResult ss a b res.1 res.2

/-- `haveFaced`. -/
def haveFacedIn (faced : List (List ℕ)) (seedA seedB : ℕ) : Bool :=
  (faced.getD seedA []).contains seedB

def haveFaced (ss : SwissSystem) (seedA seedB : ℕ) : Bool :=
  haveFacedIn ss.Faced seedA seedB

/-- The sort comparator of `pairGroup`: primary key Buchholz descending,
tie-break initial seed ascending; Buchholz scores are looked up in the
stored snapshot. -/
def pairLess (buch : List ℤ) (t1 t2 : Team) : Bool :=
  if buch.getD t1.Seed 0 = buch.getD t2.Seed 0 then decide (t1.Seed < t2.Seed)
  else decide (buch.getD t2.Seed 0 < buch.getD t1.Seed 0)

def pairLe (buch : List ℤ) (t1 t2 : Team) : Bool := !(pairLess buch t2 t1)

/-- Insertion sort.  Go's `sort.Slice` is an unstable comparison sort, but
`pairLess` is a strict total order whenever the seeds in the group are
distinct, so the sorted result is uniquely determined by the comparator and
any correct sort computes it. -/
def insertSorted (le : α → α → Bool) (x : α) : List α → List α
  | [] => [x]
  | y :: ys => if le x y then x :: y :: ys else y :: insertSorted le x ys

def sortByGo (le : α → α → Bool) : List α → List α
  | [] => []
  | x :: xs => insertSorted le x (sortByGo le xs)

abbrev pair := Team × Team

/-- `pairingTable` for Rounds 4 and 5 (6 teams), 0-based into the sorted
group. -/
def pairingTable : List (List (ℕ × ℕ)) :=
  [ [(0, 5), (1, 4), (2, 3)]
  , [(0, 5), (1, 3), (2, 4)]
  , [(0, 4), (1, 5), (2, 3)]
  , [(0, 4), (1, 3), (2, 5)]
  , [(0, 3), (1, 5), (2, 4)]
  , [(0, 3), (1, 4), (2, 5)]
  , [(0, 5), (1, 2), (3, 4)]
  , [(0, 4), (1, 2), (3, 5)]
  , [(0, 2), (1, 5), (3, 4)]
  , [(0, 2), (1, 4), (3, 5)]
  , [(0, 3), (1, 2), (4, 5)]
  , [(0, 2), (1, 3), (4, 5)]
  , [(0, 1), (2, 5), (3, 4)]
  , [(0, 1), (2, 4), (3, 5)]
  , [(0, 1), (2, 3), (4, 5)] ]

def dummyTeam : Team := ⟨0⟩

/-- A table row is acceptable when none of its three pairs is a rematch. -/
def rowValid (faced : List (List ℕ)) (sorted : List Team) (row : List (ℕ × ℕ)) : Bool :=
  row.all fun q =>
    !(haveFacedIn faced (sorted.getD q.1 dummyTeam).Seed (sorted.getD q.2 dummyTeam).Seed)

/-- The inner `for j := len(group) - 1; j > i; j--` search: scan `j`
downwards from the given start, stopping above `i`, for the first index
satisfying the predicate. -/
def searchDown (ok : ℕ → Bool) (i : ℕ) : ℕ → Option ℕ
  | 0 => none
  | j + 1 =>
    if j + 1 ≤ i then none
    else if ok (j + 1) then some (j + 1)
    else searchDown ok i j

/-- Greedy High-Low pairing over the sorted group, with the forced-rematch
fallback.  `cnt` is structural fuel for the outer `for i := range group`
loop; it is called with `cnt = group.length` so every index is visited. -/
def greedyLoop (faced : List (List ℕ)) (group : List Team) :
    ℕ → ℕ → List Bool → List pair
  | 0, _, _ => []
  | cnt + 1, i, used =>
    if i < group.length then
      if used.getD i false then greedyLoop faced group cnt (i + 1) used
      else
        match searchDown
            (fun j => !(used.getD j false) &&
              !(haveFacedIn faced (group.getD i dummyTeam).Seed (group.getD j dummyTeam).Seed))
            i (group.length - 1) with
        | some j =>
            (group.getD i dummyTeam, group.getD j dummyTeam) ::
              greedyLoop faced group cnt (i + 1) ((used.set i true).set j true)
        | none =>
          match searchDown (fun j => !(used.getD j false)) i (group.length - 1) with
          | some j =>
              (group.getD i dummyTeam, group.getD j dummyTeam) ::
                greedyLoop faced group cnt (i + 1) ((used.set i true).set j true)
          | none => greedyLoop faced group cnt (i + 1) used
    else []

def greedyPairs (faced : List (List ℕ)) (sorted : List Team) : List pair :=
  greedyLoop faced sorted sorted.length 0 (List.replicate sorted.length false)

/-- The body of `pairGroup` once the Buchholz snapshot `buch` is available:
sort, then round 1 fixed seeding, rounds 4-5 priority table for groups of
six (falling through to greedy when no row is rematch-free), greedy
High-Low otherwise. -/
def pairGroupCore (round : ℕ) (faced : List (List ℕ)) (buch : List ℤ)
    (group : List Team) : List pair :=
  let sorted := sortByGo (pairLe buch) group
  if round = 1 then
    let half := sorted.length / 2
    (sorted.take half).zip (sorted.drop half)
  else if (round = 4 ∨ round = 5) ∧ group.length = 6 then
    match pairingTable.find? (rowValid faced sorted) with
    | some row => row.map fun q => (sorted.getD q.1 dummyTeam, sorted.getD q.2 dummyTeam)
    | none => greedyPairs faced sorted
  else greedyPairs faced sorted

/-- `pairGroup` over its raw inputs.  The empty group returns no pairs
before the sort; with the snapshot missing (`CurrentBuchholz == nil`) the
comparator panics, which the sort triggers exactly when the group has at
least two elements; `none` models that panic. -/
def pairGroupOpt (round : ℕ) (faced : List (List ℕ)) (cb : Option (List ℤ))
    (group : List Team) : Option (List pair) :=
  if group.length = 0 then some []
  else
    match cb with
    | some buch => some (pairGroupCore round faced buch group)
    | none =>
      if 2 ≤ group.length then none
      else some (pairGroupCore round faced [] group)

def pairGroup (ss : SwissSystem) (group : List Team) : Option (List pair) :=
  pairGroupOpt ss.Round ss.Faced ss.CurrentBuchholz group

/-- The three score groups of `SimulateRound`: still-remaining teams
partitioned by differential sign, in team-list order. -/
def posGroupOf (teams : List Team) (recs : List Record) (rem : List Bool) :
    List Team :=
  teams.filter fun t =>
    rem.getD t.Seed false && decide (0 < (recs.getD t.Seed ⟨0, 0⟩).Diff)

def evenGroupOf (teams : List Team) (recs : List Record) (rem : List Bool) :
    List Team :=
  teams.filter fun t =>
    rem.getD t.Seed false && decide ((recs.getD t.Seed ⟨0, 0⟩).Diff = 0)

def negGroupOf (teams : List Team) (recs : List Record) (rem : List Bool) :
    List Team :=
  teams.filter fun t =>
    rem.getD t.Seed false && decide ((recs.getD t.Seed ⟨0, 0⟩).Diff < 0)

def posGroup (ss : SwissSystem) : List Team :=
  posGroupOf ss.Teams ss.records ss.Remaining

def evenGroup (ss : SwissSystem) : List Team :=
  evenGroupOf ss.Teams ss.records ss.Remaining

def negGroup (ss : SwissSystem) : List Team :=
  negGroupOf ss.Teams ss.records ss.Remaining

/-- The start of `SimulateRound`: advance the round counter and store the
Buchholz snapshot (`roundBuchholz`, one entry per record slot) computed
from the round-start records. -/
def prepRound (ss : SwissSystem) : SwissSystem :=
  { ss with
    Round := ss.Round + 1
    CurrentBuchholz :=
      some ((List.range ss.records.length).map fun seed =>
        buchholzOf ss.Faced ss.records seed) }

/-- All pairs of the round over the raw round-start data: the three score
groups are paired against the freshly stored Buchholz snapshot and the
incremented round number, exactly the state `prepRound` hands to
`pairGroup`. -/
def pairsOfRound (teams : List Team) (recs : List Record)
    (faced : List (List ℕ)) (rem : List Bool) (round : ℕ) : List pair :=
  let cb := some ((List.range recs.length).map fun seed => buchholzOf faced recs seed)
  (pairGroupOpt (round + 1) faced cb (posGroupOf teams recs rem)).getD [] ++
    (pairGroupOpt (round + 1) faced cb (evenGroupOf teams recs rem)).getD [] ++
    (pairGroupOpt (round + 1) faced cb (negGroupOf teams recs rem)).getD []

/-- All pairs of the round, collected group by group before any match is
simulated (`allPairs` in the source). -/
def roundPairs (ss : SwissSystem) : List pair :=
  pairsOfRound ss.Teams ss.records ss.Faced ss.Remaining ss.Round

def foldMatches (ss : SwissSystem) (ps : List pair) : SwissSystem :=
  ps.foldl (fun s q => SimulateMatch s q.1 q.2) ss

/-- `SimulateRound`: pair everything first, then simulate every pair. -/
def SimulateRound (ss : SwissSystem) : SwissSystem :=
  foldMatches (prepRound ss) (roundPairs ss)

def remainingCount (ss : SwissSystem) : ℕ :=
  ss.Teams.countP fun t => remOf ss t.Seed

/-- `SimulateNextRound`: advance one round unless no team remains. -/
def SimulateNextRound (ss : SwissSystem) : Bool × SwissSystem :=
  if remainingCount ss = 0 then (false, ss) else (true, SimulateRound ss)

/-- `SimulateTournament`'s loop, with structural fuel standing in for Go's
unbounded `for`; the termination theorem shows fuel 5 is exact for the
16-team bracket. -/
def simulateTournamentFuel : ℕ → SwissSystem → SwissSystem
  | 0, ss => ss
  | fuel + 1, ss =>
    if remainingCount ss = 0 then ss
    else simulateTournamentFuel fuel (SimulateRound ss)

def roundIter (k : ℕ) (ss : SwissSystem) : SwissSystem := SimulateRound^[k] ss

/-- The 16 teams of the fixed bracket, seeds 1..16. -/
def teams16 : List Team := (List.range 16).map fun i => ⟨i + 1⟩

/-! ### The Monte-Carlo harness (`simulate.go`) -/

inductive Category
  | Cat3_0
  | CatAdv
  | Cat0_3
deriving DecidableEq, Repr

/-- `const requiredCorrectPicks = 5`. -/
def requiredCorrectPicks : ℕ := 5

/-- The per-run classification chain of `Batch`:
`if rec.Wins == 3 { if rec.Losses == 0 {3-0} else {adv} } else if
rec.Losses == 3 && rec.Wins == 0 {0-3}`; otherwise the team is counted
nowhere. -/
def classifyRecord (rec : Record) : Option Category :=
  if rec.Wins = 3 then
    if rec.Losses = 0 then some .Cat3_0 else some .CatAdv
  else if rec.Losses = 3 ∧ rec.Wins = 0 then some .Cat0_3
  else none

def classifyAll (ss : SwissSystem) : ℕ → Option Category :=
  fun s => classifyRecord (recOf ss s)

/-- A candidate prediction: seed lists for the three outcome categories. -/
structure Prediction where
  cat3_0 : List ℕ
  catAdv : List ℕ
  cat0_3 : List ℕ

/-- The bitmask score `OnesCount64(masks&predMask)` summed over the three
categories: it counts the distinct predicted seeds landing in the matching
category (the masks deduplicate seeds; all seeds are below 64). -/
def predScore (cls : ℕ → Option Category) (pd : Prediction) : ℕ :=
  (pd.cat3_0.dedup.countP fun s => cls s == some .Cat3_0) +
    (pd.catAdv.dedup.countP fun s => cls s == some .CatAdv) +
    (pd.cat0_3.dedup.countP fun s => cls s == some .Cat0_3)

/-- `results[t][cat]++` for every team of the run landing in a category
(teams are keyed by their distinct seeds). -/
def bumpResults (teams : List Team) (cls : ℕ → Option Category)
    (results : ℕ → Category → ℕ) : ℕ → Category → ℕ :=
  fun s c => results s c + if (seedsOf teams).contains s ∧ cls s = some c then 1 else 0

/-- `success[idx]++` for every prediction reaching the threshold. -/
def bumpSuccess (preds : List Prediction) (cls : ℕ → Option Category)
    (success : List ℕ) : List ℕ :=
  List.zipWith
    (fun pd cnt => if requiredCorrectPicks ≤ predScore cls pd then cnt + 1 else cnt)
    preds success

/-- The `for range n` loop of `Batch`: reset, run one full tournament,
classify, score.  The engine state is threaded through so the batch's
single random stream continues across iterations. -/
def batchIter (teams : List Team) (preds : List Prediction) (fuel : ℕ) :
    ℕ → SwissSystem → (ℕ → Category → ℕ) → List ℕ →
      (ℕ → Category → ℕ) × List ℕ
  | 0, _, results, success => (results, success)
  | n + 1, ss, results, success =>
    let ss1 := simulateTournamentFuel fuel (Reset ss)
    let cls := classifyAll ss1
    batchIter teams preds fuel n ss1 (bumpResults teams cls results)
      (bumpSuccess preds cls success)

/-- `Batch`: one engine instance created from the batch's private stream,
reused (reset) across the `n` iterations.  The stream is the one derived
from the seed this batch drew from the master rng. -/
def Batch (teams : List Team) (prob : ℕ → ℕ → ℚ) (stream : ℕ → ℚ)
    (fuel n : ℕ) (preds : List Prediction) : (ℕ → Category → ℕ) × List ℕ :=
  batchIter teams preds fuel n (NewSwissSystem teams prob stream)
    (fun _ _ => 0) (List.replicate preds.length 0)

/-- `size := batchSize; if idx < remainder { size++ }` with
`batchSize := n / k` and `remainder := n % k`. -/
def batchSizeGo (n k i : ℕ) : ℕ := n / k + if i < n % k then 1 else 0

/-- Folding a batch's results into the global counters under the merge
mutex is pointwise natural-number addition. -/
def mergeResults (r1 r2 : ℕ → Category → ℕ) : ℕ → Category → ℕ :=
  fun s c => r1 s c + r2 s c

/-- The modelled `Run`.  Worker `i` computes its batch size from its own
index, but draws its seed from the mutex-guarded master rng in scheduler
order: `sched` (a permutation of `0..k-1`) says which draw each worker
obtains, so worker `i` simulates with stream `streams (sched i)`.  Merging
is pointwise addition, hence independent of merge order, so the fold is
taken in worker order without loss of generality. -/
def RunSched (teams : List Team) (prob : ℕ → ℕ → ℚ) (streams : ℕ → ℕ → ℚ)
    (fuel n k : ℕ) (preds : List Prediction) (sched : ℕ → ℕ) :
    (ℕ → Category → ℕ) × List ℕ :=
  (List.range k).foldl
    (fun acc i =>
      let br := Batch teams prob (streams (sched i)) fuel (batchSizeGo n k i) preds
      (mergeResults acc.1 br.1, List.zipWith (· + ·) acc.2 br.2))
    (fun _ _ => 0, List.replicate preds.length 0)

/-! ### Generic lemmas about the pairing building blocks -/

/-- The teams mentioned by a pair list, in order. -/
def flattenPairs (ps : List pair) : List Team :=
  ps.foldr (fun q acc => q.1 :: q.2 :: acc) []

/-! ### The greedy loop pairs every index of an even-sized group -/

/-- The indices the greedy loop has not yet matched. -/
def unusedIdx (used : List Bool) : List ℕ :=
  (List.range used.length).filter fun j => !(used.getD j false)

/-- A canonical closed probability matrix and draw stream, used to
evaluate rating- and randomness-independent quantities. -/
def probC : ℕ → ℕ → ℚ := fun _ _ => 0

def rngC : ℕ → ℚ := fun _ => 0

/-! ### Claim theorems: match format -/

/-- A two-team state in which team `b` (seed 2) already has exactly two
wins while team `a` (seed 1) is at 0-0. -/
def ssC1 : SwissSystem :=
  ⟨[⟨1⟩, ⟨2⟩], [⟨0, 0⟩, ⟨0, 0⟩, ⟨2, 0⟩], [[], [], []],
    [false, true, true], [false, false, false], 2, none, probC, rngC, 5⟩

/-- A six-team group in which everyone has already faced everyone. -/
def facedAllW : List (List ℕ) :=
  [[], [2, 3, 4, 5, 6], [1, 3, 4, 5, 6], [1, 2, 4, 5, 6], [1, 2, 3, 5, 6],
    [1, 2, 3, 4, 6], [1, 2, 3, 4, 5]]

def groupW : List Team := [⟨1⟩, ⟨2⟩, ⟨3⟩, ⟨4⟩, ⟨5⟩, ⟨6⟩]

/-! ### The round-boundary invariant of the 16-team bracket -/

/-- The multiset of records after `k` completed rounds is deterministic:
each round pairs every active team inside its score group, so the counts
evolve independently of who wins. -/
def expectedRecords : ℕ → List Record
  | 0 => List.replicate 16 ⟨0, 0⟩
  | 1 => List.replicate 8 ⟨1, 0⟩ ++ List.replicate 8 ⟨0, 1⟩
  | 2 => List.replicate 4 ⟨2, 0⟩ ++ List.replicate 8 ⟨1, 1⟩ ++ List.replicate 4 ⟨0, 2⟩
  | 3 => List.replicate 2 ⟨3, 0⟩ ++ List.replicate 6 ⟨2, 1⟩ ++
      List.replicate 6 ⟨1, 2⟩ ++ List.replicate 2 ⟨0, 3⟩
  | 4 => List.replicate 2 ⟨3, 0⟩ ++ List.replicate 3 ⟨3, 1⟩ ++
      List.replicate 6 ⟨2, 2⟩ ++ List.replicate 3 ⟨1, 3⟩ ++ List.replicate 2 ⟨0, 3⟩
  | _ => List.replicate 2 ⟨3, 0⟩ ++ List.replicate 3 ⟨3, 1⟩ ++
      List.replicate 3 ⟨3, 2⟩ ++ List.replicate 3 ⟨2, 3⟩ ++
      List.replicate 3 ⟨1, 3⟩ ++ List.replicate 2 ⟨0, 3⟩

/-- What is true of the engine at the boundary after `k` completed rounds
of a 16-team tournament started from `Reset`. -/
structure GoodState (k : ℕ) (ss : SwissSystem) : Prop where
  teams_eq : ss.Teams = teams16
  round_eq : ss.Round = k
  len_rec : ss.records.length = 17
  len_rem : ss.Remaining.length = 17
  len_fin : ss.Finished.length = 17
  recs_perm : List.Perm (teams16.map fun t => recOf ss t.Seed) (expectedRecords k)
  rem_eq : ∀ t ∈ teams16, remOf ss t.Seed =
    decide ((recOf ss t.Seed).Wins < 3 ∧ (recOf ss t.Seed).Losses < 3)
  fin_eq : ∀ t ∈ teams16, finOf ss t.Seed = !(remOf ss t.Seed)

/-- Everything `foldMatches` guarantees about the post-fold state relative
to the pre-fold state, for a disjoint list of same-record, still-active
pairs. -/
structure FoldSpec (S0 F : SwissSystem) (ps : List pair) : Prop where
  teams_eq : F.Teams = S0.Teams
  round_eq : F.Round = S0.Round
  cb_eq : F.CurrentBuchholz = S0.CurrentBuchholz
  len_rec : F.records.length = S0.records.length
  len_rem : F.Remaining.length = S0.Remaining.length
  len_fin : F.Finished.length = S0.Finished.length
  frame : ∀ s : ℕ, s ∉ (flattenPairs ps).map Team.Seed →
    recOf F s = recOf S0 s ∧ remOf F s = remOf S0 s ∧ finOf F s = finOf S0 s
  pair_recs : ∀ q ∈ ps,
    List.Perm [recOf F q.1.Seed, recOf F q.2.Seed]
      [winRec (recOf S0 q.1.Seed), loseRec (recOf S0 q.1.Seed)]
  pair_flags : ∀ q ∈ ps, ∀ s : ℕ, s = q.1.Seed ∨ s = q.2.Seed →
    (remOf F s =
      if (recOf F s).Wins = 3 ∨ (recOf F s).Losses = 3 then false else remOf S0 s) ∧
    (finOf F s =
      if (recOf F s).Wins = 3 ∨ (recOf F s).Losses = 3 then true else finOf S0 s)

/-- The record multiset a pair list turns its teams into: one win and one
loss per pair, attributed to the pre-round record of the pair's first team. -/
def pairRecs (h : Team → Record) : List pair → List Record
  | [] => []
  | q :: rest => winRec (h q.1) :: loseRec (h q.1) :: pairRecs h rest

/-! ### Transporting group statistics through the record multiset -/

/-- A team is still active iff its record shows neither 3 wins nor 3
losses; this is the `Remaining` flag maintained by the engine. -/
def activeP (r : Record) : Bool := decide (r.Wins < 3 ∧ r.Losses < 3)

/-- The record multiset produced by one full round from a `GoodState k`
state: each score group of representative record `r` and size `n` leaves
`n/2` copies of `winRec r` and `n/2` of `loseRec r`; eliminated teams keep
their records. -/
def stepRecs (k : ℕ) (rp re rn : Record) : List Record :=
  let n1 := (expectedRecords k).countP fun r => activeP r && decide (0 < r.Diff)
  let n2 := (expectedRecords k).countP fun r => activeP r && decide (r.Diff = 0)
  let n3 := (expectedRecords k).countP fun r => activeP r && decide (r.Diff < 0)
  (((List.replicate (n1 / 2) (winRec rp) ++ List.replicate (n1 / 2) (loseRec rp)) ++
      (List.replicate (n2 / 2) (winRec re) ++ List.replicate (n2 / 2) (loseRec re))) ++
    (List.replicate (n3 / 2) (winRec rn) ++ List.replicate (n3 / 2) (loseRec rn))) ++
    (expectedRecords k).filter fun r => !activeP r

/-! ### Concrete inputs for the scheduling counterexample -/

/-- An even-odds probability matrix: every game is a coin flip at 1/2. -/
def probH : ℕ → ℕ → ℚ := fun _ _ => mkRat 1 2

/-- Constant stream drawing 0: with `probH`, the first team of every pair
wins every game. -/
def rng0 : ℕ → ℚ := fun _ => 0

/-- Constant stream drawing 3/4: with `probH`, the first team of every
pair loses every game. -/
def rng1 : ℕ → ℚ := fun _ => mkRat 3 4

/-- Two per-worker streams derived from the master seed: the master rng
hands out seed 0 to the first arriver and seed 1 to the second. -/
def streamsC : ℕ → ℕ → ℚ := fun s => if s = 0 then rng0 else rng1

/-- Arrival order: worker 0 reaches the mutex first. -/
def schedId : ℕ → ℕ := fun i => i

/-- Arrival order: worker 1 reaches the mutex first. -/
def schedSwap : ℕ → ℕ := fun i => 1 - i

/-- No candidate predictions: the divergence shows up already in the
per-team category counters. -/
def predsC : List Prediction := []

/-! ### The two single-batch tournaments, evaluated round by round -/

/-- State after round 1 of the tournament driven by `rng0`. -/
def stateA1 : SwissSystem :=
  { Teams := teams16, records := [{ Wins := 0, Losses := 0 }, { Wins := 1, Losses := 0 }, { Wins := 1, Losses := 0 }, { Wins := 1, Losses := 0 }, { Wins := 1, Losses := 0 }, { Wins := 1, Losses := 0 }, { Wins := 1, Losses := 0 }, { Wins := 1, Losses := 0 }, { Wins := 1, Losses := 0 }, { Wins := 0, Losses := 1 }, { Wins := 0, Losses := 1 }, { Wins := 0, Losses := 1 }, { Wins := 0, Losses := 1 }, { Wins := 0, Losses := 1 }, { Wins := 0, Losses := 1 }, { Wins := 0, Losses := 1 }, { Wins := 0, Losses := 1 }], Faced := [[], [9], [10], [11], [12], [13], [14], [15], [16], [1], [2], [3], [4], [5], [6], [7], [8]], Remaining := [false, true, true, true, true, true, true, true, true, true, true, true, true, true, true, true, true], Finished := [false, false, false, false, false, false, false, false, false, false, false, false, false, false, false, false, false], Round := 1, CurrentBuchholz := some [0, 0, 0, 0, 0, 0, 0, 0, 0, 0, 0, 0, 0, 0, 0, 0, 0], prob := probH, rng := rng0, rngIdx := 8 }

/-- State after round 2 of the tournament driven by `rng0`. -/
def stateA2 : SwissSystem :=
  { Teams := teams16, records := [{ Wins := 0, Losses := 0 }, { Wins := 2, Losses := 0 }, { Wins := 2, Losses := 0 }, { Wins := 2, Losses := 0 }, { Wins := 2, Losses := 0 }, { Wins := 1, Losses := 1 }, { Wins := 1, Losses := 1 }, { Wins := 1, Losses := 1 }, { Wins := 1, Losses := 1 }, { Wins := 1, Losses := 1 }, { Wins := 1, Losses := 1 }, { Wins := 1, Losses := 1 }, { Wins := 1, Losses := 1 }, { Wins := 0, Losses := 2 }, { Wins := 0, Losses := 2 }, { Wins := 0, Losses := 2 }, { Wins := 0, Losses := 2 }], Faced := [[], [9, 8], [10, 7], [11, 6], [12, 5], [13, 4], [14, 3], [15, 2], [16, 1], [1, 16], [2, 15], [3, 14], [4, 13], [5, 12], [6, 11], [7, 10], [8, 9]], Remaining := [false, true, true, true, true, true, true, true, true, true, true, true, true, true, true, true, true], Finished := [false, false, false, false, false, false, false, false, false, false, false, false, false, false, false, false, false], Round := 2, CurrentBuchholz := some [0, -1, -1, -1, -1, -1, -1, -1, -1, 1, 1, 1, 1, 1, 1, 1, 1], prob := probH, rng := rng0, rngIdx := 16 }

/-- State after round 3 of the tournament driven by `rng0`. -/
def stateA3 : SwissSystem :=
  { Teams := teams16, records := [{ Wins := 0, Losses := 0 }, { Wins := 3, Losses := 0 }, { Wins := 3, Losses := 0 }, { Wins := 2, Losses := 1 }, { Wins := 2, Losses := 1 }, { Wins := 2, Losses := 1 }, { Wins := 2, Losses := 1 }, { Wins := 2, Losses := 1 }, { Wins := 2, Losses := 1 }, { Wins := 1, Losses := 2 }, { Wins := 1, Losses := 2 }, { Wins := 1, Losses := 2 }, { Wins := 1, Losses := 2 }, { Wins := 1, Losses := 2 }, { Wins := 1, Losses := 2 }, { Wins := 0, Losses := 3 }, { Wins := 0, Losses := 3 }], Faced := [[], [9, 8, 4], [10, 7, 3], [11, 6, 2], [12, 5, 1], [13, 4, 12], [14, 3, 11], [15, 2, 10], [16, 1, 9], [1, 16, 8], [2, 15, 7], [3, 14, 6], [4, 13, 5], [5, 12, 16], [6, 11, 15], [7, 10, 14], [8, 9, 13]], Remaining := [false, false, false, true, true, true, true, true, true, true, true, true, true, true, true, false, false], Finished := [false, true, true, false, false, false, false, false, false, false, false, false, false, false, false, true, true], Round := 3, CurrentBuchholz := some [0, 0, 0, 0, 0, 0, 0, 0, 0, 0, 0, 0, 0, 0, 0, 0, 0], prob := probH, rng := rng0, rngIdx := 28 }

/-- State after round 4 of the tournament driven by `rng0`. -/
def stateA4 : SwissSystem :=
  { Teams := teams16, records := [{ Wins := 0, Losses := 0 }, { Wins := 3, Losses := 0 }, { Wins := 3, Losses := 0 }, { Wins := 3, Losses := 1 }, { Wins := 3, Losses := 1 }, { Wins := 3, Losses := 1 }, { Wins := 2, Losses := 2 }, { Wins := 2, Losses := 2 }, { Wins := 2, Losses := 2 }, { Wins := 2, Losses := 2 }, { Wins := 2, Losses := 2 }, { Wins := 2, Losses := 2 }, { Wins := 1, Losses := 3 }, { Wins := 1, Losses := 3 }, { Wins := 1, Losses := 3 }, { Wins := 0, Losses := 3 }, { Wins := 0, Losses := 3 }], Faced := [[], [9, 8, 4], [10, 7, 3], [11, 6, 2, 8], [12, 5, 1, 7], [13, 4, 12, 6], [14, 3, 11, 5], [15, 2, 10, 4], [16, 1, 9, 3], [1, 16, 8, 14], [2, 15, 7, 13], [3, 14, 6, 12], [4, 13, 5, 11], [5, 12, 16, 10], [6, 11, 15, 9], [7, 10, 14], [8, 9, 13]], Remaining := [false, false, false, false, false, false, true, true, true, true, true, true, false, false, false, false, false], Finished := [false, true, true, true, true, true, false, false, false, false, false, false, true, true, true, true, true], Round := 4, CurrentBuchholz := some [0, 1, 1, 3, 3, -1, -1, -1, -1, 1, 1, 1, 1, -3, -3, -1, -1], prob := probH, rng := rng0, rngIdx := 40 }

/-- State after round 5 of the tournament driven by `rng0`. -/
def stateA5 : SwissSystem :=
  { Teams := teams16, records := [{ Wins := 0, Losses := 0 }, { Wins := 3, Losses := 0 }, { Wins := 3, Losses := 0 }, { Wins := 3, Losses := 1 }, { Wins := 3, Losses := 1 }, { Wins := 3, Losses := 1 }, { Wins := 3, Losses := 2 }, { Wins := 3, Losses := 2 }, { Wins := 3, Losses := 2 }, { Wins := 2, Losses := 3 }, { Wins := 2, Losses := 3 }, { Wins := 2, Losses := 3 }, { Wins := 1, Losses := 3 }, { Wins := 1, Losses := 3 }, { Wins := 1, Losses := 3 }, { Wins := 0, Losses := 3 }, { Wins := 0, Losses := 3 }], Faced := [[], [9, 8, 4], [10, 7, 3], [11, 6, 2, 8], [12, 5, 1, 7], [13, 4, 12, 6], [14, 3, 11, 5, 10], [15, 2, 10, 4, 9], [16, 1, 9, 3, 11], [1, 16, 8, 14, 7], [2, 15, 7, 13, 6], [3, 14, 6, 12, 8], [4, 13, 5, 11], [5, 12, 16, 10], [6, 11, 15, 9], [7, 10, 14], [8, 9, 13]], Remaining := [false, false, false, false, false, false, false, false, false, false, false, false, false, false, false, false, false], Finished := [false, true, true, true, true, true, true, true, true, true, true, true, true, true, true, true, true], Round := 5, CurrentBuchholz := some [0, 2, 2, 3, 3, -2, 2, 2, 2, -2, -2, -2, 2, -3, -3, -2, -2], prob := probH, rng := rng0, rngIdx := 46 }

/-- State after round 1 of the tournament driven by `rng1`. -/
def stateB1 : SwissSystem :=
  { Teams := teams16, records := [{ Wins := 0, Losses := 0 }, { Wins := 0, Losses := 1 }, { Wins := 0, Losses := 1 }, { Wins := 0, Losses := 1 }, { Wins := 0, Losses := 1 }, { Wins := 0, Losses := 1 }, { Wins := 0, Losses := 1 }, { Wins := 0, Losses := 1 }, { Wins := 0, Losses := 1 }, { Wins := 1, Losses := 0 }, { Wins := 1, Losses := 0 }, { Wins := 1, Losses := 0 }, { Wins := 1, Losses := 0 }, { Wins := 1, Losses := 0 }, { Wins := 1, Losses := 0 }, { Wins := 1, Losses := 0 }, { Wins := 1, Losses := 0 }], Faced := [[], [9], [10], [11], [12], [13], [14], [15], [16], [1], [2], [3], [4], [5], [6], [7], [8]], Remaining := [false, true, true, true, true, true, true, true, true, true, true, true, true, true, true, true, true], Finished := [false, false, false, false, false, false, false, false, false, false, false, false, false, false, false, false, false], Round := 1, CurrentBuchholz := some [0, 0, 0, 0, 0, 0, 0, 0, 0, 0, 0, 0, 0, 0, 0, 0, 0], prob := probH, rng := rng1, rngIdx := 8 }

/-- State after round 2 of the tournament driven by `rng1`. -/
def stateB2 : SwissSystem :=
  { Teams := teams16, records := [{ Wins := 0, Losses := 0 }, { Wins := 0, Losses := 2 }, { Wins := 0, Losses := 2 }, { Wins := 0, Losses := 2 }, { Wins := 0, Losses := 2 }, { Wins := 1, Losses := 1 }, { Wins := 1, Losses := 1 }, { Wins := 1, Losses := 1 }, { Wins := 1, Losses := 1 }, { Wins := 1, Losses := 1 }, { Wins := 1, Losses := 1 }, { Wins := 1, Losses := 1 }, { Wins := 1, Losses := 1 }, { Wins := 2, Losses := 0 }, { Wins := 2, Losses := 0 }, { Wins := 2, Losses := 0 }, { Wins := 2, Losses := 0 }], Faced := [[], [9, 8], [10, 7], [11, 6], [12, 5], [13, 4], [14, 3], [15, 2], [16, 1], [1, 16], [2, 15], [3, 14], [4, 13], [5, 12], [6, 11], [7, 10], [8, 9]], Remaining := [false, true, true, true, true, true, true, true, true, true, true, true, true, true, true, true, true], Finished := [false, false, false, false, false, false, false, false, false, false, false, false, false, false, false, false, false], Round := 2, CurrentBuchholz := some [0, 1, 1, 1, 1, 1, 1, 1, 1, -1, -1, -1, -1, -1, -1, -1, -1], prob := probH, rng := rng1, rngIdx := 16 }

/-- State after round 3 of the tournament driven by `rng1`. -/
def stateB3 : SwissSystem :=
  { Teams := teams16, records := [{ Wins := 0, Losses := 0 }, { Wins := 0, Losses := 3 }, { Wins := 0, Losses := 3 }, { Wins := 1, Losses := 2 }, { Wins := 1, Losses := 2 }, { Wins := 1, Losses := 2 }, { Wins := 1, Losses := 2 }, { Wins := 1, Losses := 2 }, { Wins := 1, Losses := 2 }, { Wins := 2, Losses := 1 }, { Wins := 2, Losses := 1 }, { Wins := 2, Losses := 1 }, { Wins := 2, Losses := 1 }, { Wins := 2, Losses := 1 }, { Wins := 2, Losses := 1 }, { Wins := 3, Losses := 0 }, { Wins := 3, Losses := 0 }], Faced := [[], [9, 8, 4], [10, 7, 3], [11, 6, 2], [12, 5, 1], [13, 4, 12], [14, 3, 11], [15, 2, 10], [16, 1, 9], [1, 16, 8], [2, 15, 7], [3, 14, 6], [4, 13, 5], [5, 12, 16], [6, 11, 15], [7, 10, 14], [8, 9, 13]], Remaining := [false, false, false, true, true, true, true, true, true, true, true, true, true, true, true, false, false], Finished := [false, true, true, false, false, false, false, false, false, false, false, false, false, false, false, true, true], Round := 3, CurrentBuchholz := some [0, 0, 0, 0, 0, 0, 0, 0, 0, 0, 0, 0, 0, 0, 0, 0, 0], prob := probH, rng := rng1, rngIdx := 28 }

/-- State after round 4 of the tournament driven by `rng1`. -/
def stateB4 : SwissSystem :=
  { Teams := teams16, records := [{ Wins := 0, Losses := 0 }, { Wins := 0, Losses := 3 }, { Wins := 0, Losses := 3 }, { Wins := 2, Losses := 2 }, { Wins := 2, Losses := 2 }, { Wins := 1, Losses := 3 }, { Wins := 1, Losses := 3 }, { Wins := 1, Losses := 3 }, { Wins := 2, Losses := 2 }, { Wins := 2, Losses := 2 }, { Wins := 3, Losses := 1 }, { Wins := 3, Losses := 1 }, { Wins := 3, Losses := 1 }, { Wins := 2, Losses := 2 }, { Wins := 2, Losses := 2 }, { Wins := 3, Losses := 0 }, { Wins := 3, Losses := 0 }], Faced := [[], [9, 8, 4], [10, 7, 3], [11, 6, 2, 5], [12, 5, 1, 6], [13, 4, 12, 3], [14, 3, 11, 4], [15, 2, 10, 8], [16, 1, 9, 7], [1, 16, 8, 10], [2, 15, 7, 9], [3, 14, 6, 13], [4, 13, 5, 14], [5, 12, 16, 11], [6, 11, 15, 12], [7, 10, 14], [8, 9, 13]], Remaining := [false, false, false, true, true, false, false, false, true, true, false, false, false, true, true, false, false], Finished := [false, true, true, false, false, true, true, true, false, false, true, true, true, false, false, true, true], Round := 4, CurrentBuchholz := some [0, -1, -1, -3, -3, 1, 1, 1, 1, -1, -1, -1, -1, 3, 3, 1, 1], prob := probH, rng := rng1, rngIdx := 40 }

/-- State after round 5 of the tournament driven by `rng1`. -/
def stateB5 : SwissSystem :=
  { Teams := teams16, records := [{ Wins := 0, Losses := 0 }, { Wins := 0, Losses := 3 }, { Wins := 0, Losses := 3 }, { Wins := 3, Losses := 2 }, { Wins := 3, Losses := 2 }, { Wins := 1, Losses := 3 }, { Wins := 1, Losses := 3 }, { Wins := 1, Losses := 3 }, { Wins := 3, Losses := 2 }, { Wins := 2, Losses := 3 }, { Wins := 3, Losses := 1 }, { Wins := 3, Losses := 1 }, { Wins := 3, Losses := 1 }, { Wins := 2, Losses := 3 }, { Wins := 2, Losses := 3 }, { Wins := 3, Losses := 0 }, { Wins := 3, Losses := 0 }], Faced := [[], [9, 8, 4], [10, 7, 3], [11, 6, 2, 5, 9], [12, 5, 1, 6, 13], [13, 4, 12, 3], [14, 3, 11, 4], [15, 2, 10, 8], [16, 1, 9, 7, 14], [1, 16, 8, 10, 3], [2, 15, 7, 9], [3, 14, 6, 13], [4, 13, 5, 14], [5, 12, 16, 11, 4], [6, 11, 15, 12, 8], [7, 10, 14], [8, 9, 13]], Remaining := [false, false, false, false, false, false, false, false, false, false, false, false, false, false, false, false, false], Finished := [false, true, true, true, true, true, true, true, true, true, true, true, true, true, true, true, true], Round := 5, CurrentBuchholz := some [0, 0, 0, -5, -5, 2, 2, 2, -2, 2, -2, -2, -2, 5, 5, 0, 0], prob := probH, rng := rng1, rngIdx := 46 }

theorem flattenPairs_cons (q : pair) (ps : List pair) :
    flattenPairs (q :: ps) = q.1 :: q.2 :: flattenPairs ps := rfl

theorem flattenPairs_append (l1 l2 : List pair) :
    flattenPairs (l1 ++ l2) = flattenPairs l1 ++ flattenPairs l2 := by
  induction l1 with
  | nil => rfl
  | cons q qs ih => simp [flattenPairs_cons, ih]

theorem insertSorted_perm (le : α → α → Bool) (x : α) (l : List α) :
    List.Perm (insertSorted le x l) (x :: l) := by
  induction l with
  | nil => simp [insertSorted]
  | cons y ys ih =>
    simp only [insertSorted]
    split
    · exact List.Perm.refl _
    · exact (ih.cons y).trans (List.Perm.swap x y ys)

theorem sortByGo_perm (le : α → α → Bool) (l : List α) :
    List.Perm (sortByGo le l) l := by
  induction l with
  | nil => exact List.Perm.refl _
  | cons x xs ih =>
    exact (insertSorted_perm le x (sortByGo le xs)).trans (ih.cons x)

theorem sortByGo_length (le : α → α → Bool) (l : List α) :
    (sortByGo le l).length = l.length :=
  (sortByGo_perm le l).length_eq

/-! ### Slice access helpers -/

theorem getD_set_self (l : List α) (i : ℕ) (v d : α) (h : i < l.length) :
    (l.set i v).getD i d = v := by
  rw [List.getD_eq_getElem?_getD, List.getElem?_set_self (by simpa using h)]
  rfl

theorem getD_set_ne (l : List α) {i j : ℕ} (v d : α) (h : i ≠ j) :
    (l.set i v).getD j d = l.getD j d := by
  rw [List.getD_eq_getElem?_getD, List.getElem?_set_ne h, ← List.getD_eq_getElem?_getD]

/-! ### The anatomy of one simulated match -/

theorem bo3Loop_start (p : ℚ) (rng : ℕ → ℚ) (idx : ℕ) :
    bo3Loop p rng 4 0 0 idx = (2, 0, idx + 2) ∨
      bo3Loop p rng 4 0 0 idx = (0, 2, idx + 2) ∨
      bo3Loop p rng 4 0 0 idx = (2, 1, idx + 3) ∨
      bo3Loop p rng 4 0 0 idx = (1, 2, idx + 3) := by
  by_cases d1 : rng idx < p
  · by_cases d2 : rng (idx + 1) < p
    · left; simp [bo3Loop, d1, d2]
    · by_cases d3 : rng (idx + 2) < p
      · right; right; left; simp [bo3Loop, d1, d2, d3]
      · right; right; right; simp [bo3Loop, d1, d2, d3]
  · by_cases d2 : rng (idx + 1) < p
    · by_cases d3 : rng (idx + 2) < p
      · right; right; left; simp [bo3Loop, d1, d2, d3]
      · right; right; right; simp [bo3Loop, d1, d2, d3]
    · right; left; simp [bo3Loop, d1, d2]

theorem matchIsBO3_true {ss : SwissSystem} {a : Team}
    (h : (recOf ss a.Seed).Wins = 2 ∨ (recOf ss a.Seed).Losses = 2) :
    matchIsBO3 ss a = true := by
  simp only [matchIsBO3, Bool.or_eq_true, beq_iff_eq]
  exact h

theorem matchIsBO3_false {ss : SwissSystem} {a : Team}
    (h : (recOf ss a.Seed).Wins ≠ 2 ∧ (recOf ss a.Seed).Losses ≠ 2) :
    matchIsBO3 ss a = false := by
  simp only [matchIsBO3, Bool.or_eq_false_iff, beq_eq_false_iff_ne, ne_eq]
  exact h

theorem matchDraw_bo3_idx (ss : SwissSystem) (a b : Team)
    (h : matchIsBO3 ss a = true) :
    (matchDraw ss a b).2 = ss.rngIdx + 2 ∨ (matchDraw ss a b).2 = ss.rngIdx + 3 := by
  unfold matchDraw
  rw [if_pos h]
  rcases bo3Loop_start (ss.prob a.Seed b.Seed) ss.rng ss.rngIdx with hc | hc | hc | hc <;>
    rw [hc] <;> simp

theorem matchDraw_single (ss : SwissSystem) (a b : Team)
    (h : matchIsBO3 ss a = false) :
    matchDraw ss a b =
      (decide (ss.rng ss.rngIdx < ss.prob a.Seed b.Seed), ss.rngIdx + 1) := by
  unfold matchDraw
  rw [if_neg (by simp [h])]

theorem simulateMatch_rngIdx (ss : SwissSystem) (a b : Team) :
    (SimulateMatch ss a b).rngIdx = (matchDraw ss a b).2 := rfl

/-- The two records touched by a match: the winner gains a win, the loser a
loss, aliasing-free thanks to distinct in-range seeds. -/
theorem applyMatchResult_records (ss : SwissSystem) (a b : Team) (w : Bool)
    (idx : ℕ) (ha : a.Seed < ss.records.length) (hb : b.Seed < ss.records.length)
    (hab : a.Seed ≠ b.Seed) :
    (recOf (applyMatchResult ss a b w idx) a.Seed =
        if w then winRec (recOf ss a.Seed) else loseRec (recOf ss a.Seed))
    ∧ (recOf (applyMatchResult ss a b w idx) b.Seed =
        if w then loseRec (recOf ss b.Seed) else winRec (recOf ss b.Seed)) := by
  cases w <;>
    simp only [applyMatchResult, recOf, Bool.false_eq_true, if_false, if_true] <;>
    constructor <;>
    first
      | rw [getD_set_ne _ _ _ (Ne.symm hab), getD_set_self _ _ _ _ ha]
      | rw [getD_set_self _ _ _ _ (by simpa using hb),
          getD_set_ne _ _ _ hab]

theorem simulateMatch_records (ss : SwissSystem) (a b : Team)
    (ha : a.Seed < ss.records.length) (hb : b.Seed < ss.records.length)
    (hab : a.Seed ≠ b.Seed) :
    (recOf (SimulateMatch ss a b) a.Seed = winRec (recOf ss a.Seed) ∧
        recOf (SimulateMatch ss a b) b.Seed = loseRec (recOf ss b.Seed))
    ∨ (recOf (SimulateMatch ss a b) a.Seed = loseRec (recOf ss a.Seed) ∧
        recOf (SimulateMatch ss a b) b.Seed = winRec (recOf ss b.Seed)) := by
  have h := applyMatchResult_records ss a b (matchDraw ss a b).1 (matchDraw ss a b).2 ha hb hab
  cases hw : (matchDraw ss a b).1 <;> rw [hw] at h <;>
    simp only [if_true, if_false, Bool.false_eq_true] at h
  · right; exact ⟨by rw [show SimulateMatch ss a b =
      applyMatchResult ss a b (matchDraw ss a b).1 (matchDraw ss a b).2 from rfl, hw]; exact h.1,
      by rw [show SimulateMatch ss a b =
        applyMatchResult ss a b (matchDraw ss a b).1 (matchDraw ss a b).2 from rfl, hw]; exact h.2⟩
  · left; exact ⟨by rw [show SimulateMatch ss a b =
      applyMatchResult ss a b (matchDraw ss a b).1 (matchDraw ss a b).2 from rfl, hw]; exact h.1,
      by rw [show SimulateMatch ss a b =
        applyMatchResult ss a b (matchDraw ss a b).1 (matchDraw ss a b).2 from rfl, hw]; exact h.2⟩

/-! ### Every pairing rule produces a perfect matching of its group -/

theorem flattenPairs_zip (l1 l2 : List Team) (h : l1.length = l2.length) :
    List.Perm (flattenPairs (l1.zip l2)) (l1 ++ l2) := by
  induction l1 generalizing l2 with
  | nil =>
    cases l2 with
    | nil => exact List.Perm.refl _
    | cons b bs => simp at h
  | cons a as ih =>
    cases l2 with
    | nil => simp at h
    | cons b bs =>
      simp only [List.zip_cons_cons, flattenPairs_cons, List.cons_append]
      refine List.Perm.cons a ?_
      exact ((ih bs (by simpa using h)).cons b).trans List.perm_middle.symm

theorem getD_map_range (l : List α) (d : α) :
    (List.range l.length).map (fun i => l.getD i d) = l := by
  induction l with
  | nil => rfl
  | cons a as ih =>
    rw [List.length_cons, List.range_succ_eq_map, List.map_cons, List.map_map]
    exact congrArg (a :: ·) ih

theorem flattenPairs_map_pairs (g : ℕ → Team) (row : List (ℕ × ℕ)) :
    flattenPairs (row.map fun q => (g q.1, g q.2)) =
      (row.flatMap fun q => [q.1, q.2]).map g := by
  induction row with
  | nil => rfl
  | cons q qs ih => simp [flattenPairs_cons, ih]

theorem pairingTable_rows_cover :
    ∀ row ∈ pairingTable, List.Perm (row.flatMap fun q => [q.1, q.2]) (List.range 6) := by
  decide

theorem flattenPairs_length (ps : List pair) :
    (flattenPairs ps).length = 2 * ps.length := by
  induction ps with
  | nil => rfl
  | cons q qs ih => simp [flattenPairs_cons, ih]; omega

/-- A permutation of the index range maps through `getD` to a permutation
of the list itself. -/
theorem map_getD_perm (l : List α) (d : α) (idxs : List ℕ)
    (h : List.Perm idxs (List.range l.length)) :
    List.Perm (idxs.map fun i => l.getD i d) l := by
  have := h.map fun i => l.getD i d
  rwa [getD_map_range l d] at this

theorem searchDown_some {ok : ℕ → Bool} {i m j : ℕ}
    (h : searchDown ok i m = some j) : ok j = true ∧ i < j ∧ j ≤ m := by
  induction m with
  | zero => simp [searchDown] at h
  | succ m ih =>
    simp only [searchDown] at h
    by_cases hle : m + 1 ≤ i
    · rw [if_pos hle] at h
      simp at h
    · rw [if_neg hle] at h
      by_cases hok : ok (m + 1) = true
      · rw [if_pos hok] at h
        obtain rfl := Option.some.inj h
        exact ⟨hok, by omega, le_refl _⟩
      · rw [if_neg hok] at h
        have := ih h
        exact ⟨this.1, this.2.1, by omega⟩

theorem searchDown_none {ok : ℕ → Bool} {i m : ℕ}
    (h : searchDown ok i m = none) : ∀ j, i < j → j ≤ m → ok j = false := by
  induction m with
  | zero => intro j h1 h2; omega
  | succ m ih =>
    simp only [searchDown] at h
    by_cases hle : m + 1 ≤ i
    · intro j h1 h2; omega
    · rw [if_neg hle] at h
      by_cases hok : ok (m + 1) = true
      · rw [if_pos hok] at h
        simp at h
      · rw [if_neg hok] at h
        intro j h1 h2
        rcases Nat.lt_or_ge j (m + 1) with hj | hj
        · exact ih h j h1 (by omega)
        · have hj2 : j = m + 1 := by omega
          subst hj2
          simpa using hok

theorem mem_unusedIdx {used : List Bool} {j : ℕ} :
    j ∈ unusedIdx used ↔ j < used.length ∧ used.getD j false = false := by
  simp [unusedIdx, List.mem_filter, List.mem_range]

theorem unusedIdx_nodup (used : List Bool) : (unusedIdx used).Nodup :=
  (List.nodup_range _).filter _

theorem getD_replicate_self (n : ℕ) (a : α) (i : ℕ) :
    (List.replicate n a).getD i a = a := by
  induction n generalizing i with
  | zero => rfl
  | succ n ih =>
    cases i with
    | zero => rfl
    | succ i => exact ih i

theorem unusedIdx_replicate (n : ℕ) :
    unusedIdx (List.replicate n false) = List.range n := by
  unfold unusedIdx
  rw [List.length_replicate]
  apply List.filter_eq_self.2
  intro j _
  rw [getD_replicate_self]
  rfl

/-- Marking the fresh pair `(i, j0)` as used removes exactly those two
indices from the unused set. -/
theorem unusedIdx_set_two (used : List Bool) (i j0 : ℕ)
    (hi : i < used.length) (hj : j0 < used.length) (hne : i ≠ j0)
    (hiu : used.getD i false = false) (hju : used.getD j0 false = false) :
    List.Perm (unusedIdx used)
      (i :: j0 :: unusedIdx ((used.set i true).set j0 true)) := by
  have hlen : ((used.set i true).set j0 true).length = used.length := by simp
  have h1 : unusedIdx ((used.set i true).set j0 true) =
      ((unusedIdx used).filter fun x => x != i).filter fun x => x != j0 := by
    unfold unusedIdx
    rw [hlen, List.filter_filter, List.filter_filter]
    apply List.filter_congr
    intro j hj2
    by_cases hji : j = i
    · subst hji
      rw [getD_set_ne _ _ _ (fun h => hne h.symm), getD_set_self _ _ _ _ hi]
      simp
    · by_cases hjj : j = j0
      · subst hjj
        rw [getD_set_self _ _ _ _ (by simpa using hj)]
        simp
      · rw [getD_set_ne _ _ _ (fun h => hjj h.symm), getD_set_ne _ _ _ (fun h => hji h.symm)]
        simp [hji, hjj]
  have himem : i ∈ unusedIdx used := mem_unusedIdx.2 ⟨hi, hiu⟩
  have hjmem : j0 ∈ unusedIdx used := mem_unusedIdx.2 ⟨hj, hju⟩
  have hnd := unusedIdx_nodup used
  have e1 : List.Perm (unusedIdx used) (i :: (unusedIdx used).erase i) :=
    List.perm_cons_erase himem
  have hjmem2 : j0 ∈ (unusedIdx used).erase i :=
    (List.mem_erase_of_ne (fun h => hne h.symm)).2 hjmem
  have e2 : List.Perm ((unusedIdx used).erase i)
      (j0 :: ((unusedIdx used).erase i).erase j0) :=
    List.perm_cons_erase hjmem2
  have hframe : ((unusedIdx used).erase i).erase j0 =
      ((unusedIdx used).filter fun x => x != i).filter fun x => x != j0 := by
    rw [List.Nodup.erase_eq_filter hnd, List.Nodup.erase_eq_filter (hnd.filter _)]
  rw [h1, ← hframe]
  exact e1.trans (e2.cons i)

theorem greedyLoop_perm (faced : List (List ℕ)) (group : List Team) :
    ∀ (cnt i : ℕ) (used : List Bool),
      used.length = group.length →
      group.length ≤ cnt + i →
      (∀ j ∈ unusedIdx used, i ≤ j) →
      2 ∣ (unusedIdx used).length →
      List.Perm (flattenPairs (greedyLoop faced group cnt i used))
        ((unusedIdx used).map fun j => group.getD j dummyTeam) := by
  intro cnt
  induction cnt with
  | zero =>
    intro i used hlen hcnt hge _
    have hempty : unusedIdx used = [] := by
      rw [List.eq_nil_iff_forall_not_mem]
      intro j hj
      have h1 := (mem_unusedIdx.1 hj).1
      have h2 := hge j hj
      omega
    rw [hempty]
    exact List.Perm.refl _
  | succ cnt ih =>
    intro i used hlen hcnt hge heven
    by_cases hil : i < group.length
    · simp only [greedyLoop, if_pos hil]
      by_cases hui : used.getD i false = true
      · rw [if_pos hui]
        apply ih (i + 1) used hlen (by omega) ?_ heven
        intro j hj
        have := hge j hj
        have hju := (mem_unusedIdx.1 hj).2
        rcases Nat.eq_or_lt_of_le this with heq | hlt
        · exfalso
          rw [heq] at hui
          rw [hui] at hju
          simp at hju
        · omega
      · rw [if_neg hui]
        have hiu : used.getD i false = false := by simpa using hui
        have hiul : i < used.length := by omega
        have himem : i ∈ unusedIdx used := mem_unusedIdx.2 ⟨hiul, hiu⟩
        have hlen2 : 2 ≤ (unusedIdx used).length := by
          rcases heven with ⟨m, hm⟩
          have hpos : 0 < (unusedIdx used).length :=
            List.length_pos.2 (fun hnil => by rw [hnil] at himem; simp at himem)
          omega
        have hex : ∃ jw ∈ unusedIdx used, jw ≠ i := by
          by_contra hall
          push_neg at hall
          have hsub : unusedIdx used = [i] ∨ unusedIdx used = [] := by
            rcases hcase : unusedIdx used with _ | ⟨x, _ | ⟨y, rest⟩⟩
            · right; rfl
            · left
              have := hall x (by rw [hcase]; exact List.mem_cons_self _ _)
              rw [this]
            · exfalso
              have hnd := unusedIdx_nodup used
              rw [hcase] at hnd
              have hx := hall x (by rw [hcase]; simp)
              have hy := hall y (by rw [hcase]; simp)
              rw [hx, ← hy] at hnd
              simp at hnd
          rcases hsub with hs | hs <;> rw [hs] at hlen2 <;> simp at hlen2
        obtain ⟨jw, hjw_mem, hjw_ne⟩ := hex
        obtain ⟨hjw_len, hjw_unused⟩ := mem_unusedIdx.1 hjw_mem
        have hjw_gt : i < jw := lt_of_le_of_ne (hge jw hjw_mem) (Ne.symm hjw_ne)
        have hjw_le : jw ≤ group.length - 1 := by omega
        have hcont : ∀ j0, used.getD j0 false = false → i < j0 → j0 < group.length →
            List.Perm
              (flattenPairs ((group.getD i dummyTeam, group.getD j0 dummyTeam) ::
                greedyLoop faced group cnt (i + 1) ((used.set i true).set j0 true)))
              ((unusedIdx used).map fun j => group.getD j dummyTeam) := by
          intro j0 hj0u hij0 hj0len
          have hj0ul : j0 < used.length := by omega
          have hperm2 := unusedIdx_set_two used i j0 hiul hj0ul (by omega) hiu hj0u
          have hlen3 : ((used.set i true).set j0 true).length = group.length := by
            simp [hlen]
          have hge3 : ∀ j ∈ unusedIdx ((used.set i true).set j0 true), i + 1 ≤ j := by
            intro j hj
            have hjin : j ∈ unusedIdx used := by
              have := hperm2.mem_iff.2 (by
                simp only [List.mem_cons]
                right; right; exact hj)
              exact this
            have hge4 := hge j hjin
            have hju2 := (mem_unusedIdx.1 hj).2
            rcases Nat.eq_or_lt_of_le hge4 with heq | hlt
            · exfalso
              subst heq
              rw [getD_set_ne _ _ _ (by omega), getD_set_self _ _ _ _ hiul] at hju2
              simp at hju2
            · omega
          have heven3 : 2 ∣ (unusedIdx ((used.set i true).set j0 true)).length := by
            have := hperm2.length_eq
            simp only [List.length_cons] at this
            rcases heven with ⟨m, hm⟩
            exact ⟨m - 1, by omega⟩
          have hih := ih (i + 1) ((used.set i true).set j0 true) hlen3 (by omega) hge3 heven3
          rw [flattenPairs_cons]
          refine List.Perm.trans ?_
            (hperm2.map (fun j => group.getD j dummyTeam)).symm
          simp only [List.map_cons]
          exact (hih.cons _).cons _
        cases hs1 : searchDown
            (fun j => !(used.getD j false) &&
              !(haveFacedIn faced (group.getD i dummyTeam).Seed
                (group.getD j dummyTeam).Seed)) i (group.length - 1) with
        | some j0 =>
          obtain ⟨hok, hij0, hj0le⟩ := searchDown_some hs1
          have hj0u : used.getD j0 false = false := by
            rw [Bool.and_eq_true] at hok
            simpa using hok.1
          exact hcont j0 hj0u hij0 (by omega)
        | none =>
          cases hs2 : searchDown (fun j => !(used.getD j false)) i (group.length - 1) with
          | some j0 =>
            obtain ⟨hok, hij0, hj0le⟩ := searchDown_some hs2
            have hj0u : used.getD j0 false = false := by simpa using hok
            exact hcont j0 hj0u hij0 (by omega)
          | none =>
            exfalso
            have := searchDown_none hs2 jw hjw_gt hjw_le
            rw [hjw_unused] at this
            simp at this
    · simp only [greedyLoop, if_neg hil]
      have hempty : unusedIdx used = [] := by
        rw [List.eq_nil_iff_forall_not_mem]
        intro j hj
        have h1 := (mem_unusedIdx.1 hj).1
        have h2 := hge j hj
        omega
      rw [hempty]
      exact List.Perm.refl _

/-- The greedy High-Low pairing covers an even-sized group exactly. -/
theorem greedyPairs_perm (faced : List (List ℕ)) (sorted : List Team)
    (heven : 2 ∣ sorted.length) :
    List.Perm (flattenPairs (greedyPairs faced sorted)) sorted := by
  have h := greedyLoop_perm faced sorted sorted.length 0
    (List.replicate sorted.length false) (by simp) (by omega)
    (fun j _ => Nat.zero_le j)
    (by rw [unusedIdx_replicate, List.length_range]; exact heven)
  rw [unusedIdx_replicate, getD_map_range] at h
  exact h

/-- `pairGroup`'s selected rule always emits a perfect matching of an
even-sized group. -/
theorem pairGroupCore_perm (round : ℕ) (faced : List (List ℕ)) (buch : List ℤ)
    (group : List Team) (heven : 2 ∣ group.length) :
    List.Perm (flattenPairs (pairGroupCore round faced buch group)) group := by
  have hs := sortByGo_perm (pairLe buch) group
  have hslen : (sortByGo (pairLe buch) group).length = group.length := hs.length_eq
  have hgreedy : List.Perm
      (flattenPairs (greedyPairs faced (sortByGo (pairLe buch) group))) group :=
    (greedyPairs_perm faced _ (by rw [hslen]; exact heven)).trans hs
  unfold pairGroupCore
  by_cases h1 : round = 1
  · rw [if_pos h1]
    have hlens : (List.take ((sortByGo (pairLe buch) group).length / 2)
          (sortByGo (pairLe buch) group)).length =
        (List.drop ((sortByGo (pairLe buch) group).length / 2)
          (sortByGo (pairLe buch) group)).length := by
      rw [List.length_take, List.length_drop]
      obtain ⟨m, hm⟩ := heven
      rw [hslen, hm]
      omega
    refine (flattenPairs_zip _ _ hlens).trans ?_
    rw [List.take_append_drop]
    exact hs
  · rw [if_neg h1]
    by_cases h45 : (round = 4 ∨ round = 5) ∧ group.length = 6
    · rw [if_pos h45]
      cases hf : pairingTable.find? (rowValid faced (sortByGo (pairLe buch) group)) with
      | some row =>
        have hmem := List.mem_of_find?_eq_some hf
        have hcover := pairingTable_rows_cover row hmem
        show (flattenPairs (row.map fun q =>
            ((sortByGo (pairLe buch) group).getD q.1 dummyTeam,
              (sortByGo (pairLe buch) group).getD q.2 dummyTeam))).Perm group
        rw [flattenPairs_map_pairs
          (fun i => (sortByGo (pairLe buch) group).getD i dummyTeam) row]
        refine (map_getD_perm _ _ _ ?_).trans hs
        rw [hslen, h45.2]
        exact hcover
      | none => exact hgreedy
    · rw [if_neg h45]
      exact hgreedy

/-- `find?` returns the first entry satisfying the predicate. -/
theorem find?_of_first {α : Type} (p : α → Bool) (l : List α) :
    ∀ (i : ℕ) (x : α), l[i]? = some x → p x = true →
      (∀ j, j < i → ∀ y, l[j]? = some y → p y = false) →
      l.find? p = some x := by
  induction l with
  | nil => intro i x hx; simp at hx
  | cons a as ih =>
    intro i x hx hpx hmin
    cases i with
    | zero =>
      simp only [List.getElem?_cons_zero, Option.some.injEq] at hx
      subst hx
      exact List.find?_cons_of_pos _ hpx
    | succ i =>
      have ha : p a = false := hmin 0 (Nat.succ_pos i) a (by simp)
      rw [List.find?_cons_of_neg _ (by simp [ha])]
      exact ih i x (by simpa using hx) hpx
        (fun j hj y hy => hmin (j + 1) (by omega) y (by simpa using hy))

/-! ### Claim theorems: harness arithmetic and classification -/

theorem sum_ite_lt_range (k m : ℕ) (h : m ≤ k) :
    (∑ i ∈ Finset.range k, if i < m then 1 else 0) = m := by
  induction k with
  | zero =>
    simp only [Finset.range_zero, Finset.sum_empty]
    omega
  | succ k ih =>
    rw [Finset.sum_range_succ]
    by_cases hmk : m ≤ k
    · rw [ih hmk, if_neg (by omega)]
      omega
    · have hme : m = k + 1 := by omega
      subst hme
      have hall : ∀ i ∈ Finset.range k, (if i < k + 1 then (1 : ℕ) else 0) = 1 := by
        intro i hi
        exact if_pos (by simp at hi; omega)
      rw [Finset.sum_congr rfl hall, if_pos (by omega)]
      simp

/-- C8: worker `i` receives `⌈n/k⌉` runs when `i < n % k` and `⌊n/k⌋`
otherwise, so the first `n % k` workers get the larger size and the batch
sizes sum to exactly `n`. -/
theorem run_batch_sizes (n k : ℕ) (hk : 1 ≤ k) :
    (∑ i ∈ Finset.range k, batchSizeGo n k i) = n
    ∧ (∀ i, i < k → i < n % k → batchSizeGo n k i = (n + k - 1) / k)
    ∧ (∀ i, i < k → n % k ≤ i → batchSizeGo n k i = n / k)
    ∧ (∀ i, i < k →
        batchSizeGo n k i = (n + k - 1) / k ∨ batchSizeGo n k i = n / k) := by
  have hk0 : 0 < k := hk
  have hmod : n % k < k := Nat.mod_lt _ hk0
  have hceil : 0 < n % k → (n + k - 1) / k = n / k + 1 := by
    intro hr
    have hdm : k * (n / k) + n % k = n := Nat.div_add_mod n k
    have hrew : n + k - 1 = k * (n / k) + (n % k + k - 1) := by omega
    rw [hrew, Nat.mul_add_div hk0]
    have h1 : 1 ≤ (n % k + k - 1) / k :=
      (Nat.one_le_div_iff hk0).2 (by omega)
    have h2 : (n % k + k - 1) / k < 2 :=
      (Nat.div_lt_iff_lt_mul hk0).2 (by omega)
    omega
  refine ⟨?_, ?_, ?_, ?_⟩
  · simp only [batchSizeGo]
    rw [Finset.sum_add_distrib, sum_ite_lt_range k (n % k) (le_of_lt hmod),
      Finset.sum_const, Finset.card_range, smul_eq_mul]
    have := Nat.div_add_mod n k
    omega
  · intro i _ hi
    simp only [batchSizeGo]
    rw [if_pos hi, hceil (by omega)]
  · intro i _ hi
    simp only [batchSizeGo]
    rw [if_neg (by omega)]
    omega
  · intro i hik
    by_cases hi : i < n % k
    · left
      simp only [batchSizeGo]
      rw [if_pos hi, hceil (by omega)]
    · right
      simp only [batchSizeGo]
      rw [if_neg hi]
      omega

theorem run_batch_sizes_witness :
    (1 ≤ 3 ∧ (∑ i ∈ Finset.range 3, batchSizeGo 7 3 i) = 7)
    ∧ batchSizeGo 7 3 0 = 3 ∧ batchSizeGo 7 3 1 = 2 ∧ batchSizeGo 7 3 2 = 2 :=
  ⟨⟨by decide, (run_batch_sizes 7 3 (by decide)).1⟩, by decide, by decide, by decide⟩

/-- C10: in `Batch`'s per-run classification (`classifyRecord`, the branch
chain both the masks and the `results` counters go through), a record lands
in at most one category; the records 1-3 and 2-3 land in none; and the 0-3
category requires both `Wins == 0` and `Losses == 3`. -/
theorem batch_classification :
    (∀ rec c1 c2,
        classifyRecord rec = some c1 → classifyRecord rec = some c2 → c1 = c2)
    ∧ classifyRecord ⟨1, 3⟩ = none
    ∧ classifyRecord ⟨2, 3⟩ = none
    ∧ (∀ rec, classifyRecord rec = some .Cat0_3 ↔ rec.Wins = 0 ∧ rec.Losses = 3) := by
  refine ⟨?_, by decide, by decide, ?_⟩
  · intro rec c1 c2 h1 h2
    rw [h1] at h2
    exact Option.some.inj h2
  · intro rec
    obtain ⟨w, l⟩ := rec
    unfold classifyRecord
    split_ifs with h1 h2 h3 <;> simp_all <;> omega

theorem batch_classification_witness :
    classifyRecord ⟨0, 3⟩ = some .Cat0_3 ∧ Category.Cat0_3 = Category.Cat0_3 :=
  ⟨(batch_classification.2.2.2 ⟨0, 3⟩).2 ⟨rfl, rfl⟩,
    batch_classification.1 ⟨0, 3⟩ .Cat0_3 .Cat0_3
      ((batch_classification.2.2.2 ⟨0, 3⟩).2 ⟨rfl, rfl⟩)
      ((batch_classification.2.2.2 ⟨0, 3⟩).2 ⟨rfl, rfl⟩)⟩

/-- The pairs of the round about to be played on a freshly reset bracket
do not depend on the probability matrix or the random stream. -/
theorem roundPairs_reset_indep (teams : List Team) (p1 p2 : ℕ → ℕ → ℚ)
    (r1 r2 : ℕ → ℚ) :
    roundPairs (Reset (NewSwissSystem teams p1 r1)) =
      roundPairs (Reset (NewSwissSystem teams p2 r2)) := rfl

/-- C3: immediately after `Reset`, with the 16 seeds all tied at 0-0, the
round played by `SimulateRound` (whose match list is `roundPairs`) pairs
seed `i` against seed `i + 8`, for any probability matrix and any random
stream. -/
theorem round1_fixed_seeding (prob : ℕ → ℕ → ℚ) (rng : ℕ → ℚ) :
    (roundPairs (Reset (NewSwissSystem teams16 prob rng))).map
        (fun q => (q.1.Seed, q.2.Seed)) =
      [(1, 9), (2, 10), (3, 11), (4, 12), (5, 13), (6, 14), (7, 15), (8, 16)] := by
  rw [roundPairs_reset_indep teams16 prob probC rng rngC]
  decide

/-- C1 counterexample: in `ssC1` the second team has exactly two wins, so
by the claim the match should be a best-of-three — which draws at least two
games before either side reaches two game-wins.  The code consumes exactly
one random draw: it played a single game, because the format check reads
only the first argument's record. -/
theorem simulate_match_bo3_counterexample :
    ((recOf ssC1 2).Wins = 2 ∨ (recOf ssC1 2).Losses = 2)
    ∧ (SimulateMatch ssC1 ⟨1⟩ ⟨2⟩).rngIdx = ssC1.rngIdx + 1 := by
  constructor
  · left; decide
  · decide

/-- C1 amended: the match is a best-of-three (with two or three games
drawn) if and only if the FIRST argument `a` has exactly 2 wins or exactly
2 losses; otherwise exactly one game is drawn.  In both cases the winner's
record gains exactly one win and the loser's exactly one loss. -/
theorem simulate_match_format_and_scoring (ss : SwissSystem) (a b : Team)
    (ha : a.Seed < ss.records.length) (hb : b.Seed < ss.records.length)
    (hab : a.Seed ≠ b.Seed) :
    ((recOf ss a.Seed).Wins = 2 ∨ (recOf ss a.Seed).Losses = 2 →
      (SimulateMatch ss a b).rngIdx = ss.rngIdx + 2 ∨
        (SimulateMatch ss a b).rngIdx = ss.rngIdx + 3)
    ∧ ((recOf ss a.Seed).Wins ≠ 2 ∧ (recOf ss a.Seed).Losses ≠ 2 →
      (SimulateMatch ss a b).rngIdx = ss.rngIdx + 1)
    ∧ ((recOf (SimulateMatch ss a b) a.Seed = winRec (recOf ss a.Seed) ∧
        recOf (SimulateMatch ss a b) b.Seed = loseRec (recOf ss b.Seed))
      ∨ (recOf (SimulateMatch ss a b) a.Seed = loseRec (recOf ss a.Seed) ∧
        recOf (SimulateMatch ss a b) b.Seed = winRec (recOf ss b.Seed))) := by
  refine ⟨?_, ?_, simulateMatch_records ss a b ha hb hab⟩
  · intro h
    rw [simulateMatch_rngIdx]
    exact matchDraw_bo3_idx ss a b (matchIsBO3_true h)
  · intro h
    rw [simulateMatch_rngIdx, matchDraw_single ss a b (matchIsBO3_false h)]

theorem simulate_match_format_witness :
    (Team.mk 2).Seed < ssC1.records.length ∧ (Team.mk 1).Seed < ssC1.records.length ∧
    (Team.mk 2).Seed ≠ (Team.mk 1).Seed ∧
    ((SimulateMatch ssC1 ⟨2⟩ ⟨1⟩).rngIdx = ssC1.rngIdx + 2 ∨
      (SimulateMatch ssC1 ⟨2⟩ ⟨1⟩).rngIdx = ssC1.rngIdx + 3) :=
  ⟨by decide, by decide, by decide,
    (simulate_match_format_and_scoring ssC1 ⟨2⟩ ⟨1⟩ (by decide) (by decide)
        (by decide)).1 (by left; decide)⟩

/-! ### Claim theorems: Buchholz snapshot contract and pairing order -/

/-- C9: the Buchholz snapshot is `nil` after construction and after
`Reset`; requesting pairing in that state on a group of two or more teams
hits the fatal comparator path (modelled by `none`); and the pairing calls
made by `SimulateRound` run on the `prepRound` state, whose snapshot has
just been stored, so the fatal path is unreachable there. -/
theorem buchholz_snapshot_contract :
    (∀ (teams : List Team) (prob : ℕ → ℕ → ℚ) (rng : ℕ → ℚ),
        (NewSwissSystem teams prob rng).CurrentBuchholz = none)
    ∧ (∀ ss : SwissSystem, (Reset ss).CurrentBuchholz = none)
    ∧ (∀ (ss : SwissSystem) (group : List Team),
        ss.CurrentBuchholz = none → 2 ≤ group.length → pairGroup ss group = none)
    ∧ (∀ (ss : SwissSystem) (group : List Team),
        pairGroup (prepRound ss) group ≠ none) := by
  refine ⟨fun _ _ _ => rfl, fun _ => rfl, ?_, ?_⟩
  · intro ss group hcb hlen
    simp only [pairGroup, pairGroupOpt, hcb]
    rw [if_neg (by omega), if_pos hlen]
  · intro ss group
    have hcb : (prepRound ss).CurrentBuchholz =
        some ((List.range ss.records.length).map fun seed =>
          buchholzOf ss.Faced ss.records seed) := rfl
    simp only [pairGroup, pairGroupOpt, hcb]
    split <;> simp

theorem buchholz_snapshot_contract_witness :
    pairGroup (Reset (NewSwissSystem teams16 probC rngC)) teams16 = none :=
  buchholz_snapshot_contract.2.2.1 (Reset (NewSwissSystem teams16 probC rngC)) teams16
    (buchholz_snapshot_contract.2.1 (NewSwissSystem teams16 probC rngC)) (by decide)

/-- C5: the pair list a round will play is a function of the round-start
state only — it ignores the stream, the cursor, the probability matrix, the
stale snapshot and the finished flags — and `SimulateRound` folds the match
simulator over exactly that pre-computed pair list, starting from the
`prepRound` state that stores the fresh Buchholz snapshot computed from the
round-start records and faced lists. -/
theorem pairs_before_matches :
    (∀ ss1 ss2 : SwissSystem, ss1.Teams = ss2.Teams → ss1.records = ss2.records →
        ss1.Faced = ss2.Faced → ss1.Remaining = ss2.Remaining →
        ss1.Round = ss2.Round → roundPairs ss1 = roundPairs ss2)
    ∧ (∀ ss : SwissSystem, (prepRound ss).CurrentBuchholz =
        some ((List.range ss.records.length).map fun seed =>
          buchholzOf ss.Faced ss.records seed))
    ∧ (∀ ss : SwissSystem, SimulateRound ss = foldMatches (prepRound ss) (roundPairs ss)) := by
  refine ⟨?_, fun _ => rfl, fun _ => rfl⟩
  intro ss1 ss2 h1 h2 h3 h4 h5
  simp only [roundPairs, h1, h2, h3, h4, h5]

theorem pairs_before_matches_witness :
    roundPairs (Reset (NewSwissSystem teams16 probC rngC)) =
      roundPairs (Reset (NewSwissSystem teams16 probC (fun _ => mkRat 1 3))) :=
  pairs_before_matches.1 _ _ rfl rfl rfl rfl rfl

/-! ### Claim theorems: the round-4/5 priority table -/

/-- C4: for a six-team group in round 4 or 5, the priority table is
scanned in order and the three pairs of the first rematch-free row are
returned in full; when every row contains a rematch the greedy High-Low
fallback runs instead, and it always returns three pairs covering the
whole sorted group — it cannot fail. -/
theorem round45_priority_table (round : ℕ) (faced : List (List ℕ))
    (buch : List ℤ) (group : List Team) (hr : round = 4 ∨ round = 5)
    (h6 : group.length = 6) :
    (∀ (i : ℕ) (row : List (ℕ × ℕ)), pairingTable[i]? = some row →
        rowValid faced (sortByGo (pairLe buch) group) row = true →
        (∀ j, j < i → ∀ rowj, pairingTable[j]? = some rowj →
          rowValid faced (sortByGo (pairLe buch) group) rowj = false) →
        pairGroupCore round faced buch group =
          row.map fun q => ((sortByGo (pairLe buch) group).getD q.1 dummyTeam,
            (sortByGo (pairLe buch) group).getD q.2 dummyTeam))
    ∧ ((∀ row ∈ pairingTable,
          rowValid faced (sortByGo (pairLe buch) group) row = false) →
        pairGroupCore round faced buch group =
          greedyPairs faced (sortByGo (pairLe buch) group)
        ∧ (greedyPairs faced (sortByGo (pairLe buch) group)).length = 3
        ∧ List.Perm
            (flattenPairs (greedyPairs faced (sortByGo (pairLe buch) group)))
            (sortByGo (pairLe buch) group)) := by
  have hne1 : ¬round = 1 := by rcases hr with h | h <;> omega
  have h45 : (round = 4 ∨ round = 5) ∧ group.length = 6 := ⟨hr, h6⟩
  constructor
  · intro i row hrow hvalid hmin
    have hfind : pairingTable.find? (rowValid faced (sortByGo (pairLe buch) group)) =
        some row :=
      find?_of_first _ pairingTable i row hrow hvalid hmin
    unfold pairGroupCore
    rw [if_neg hne1, if_pos h45, hfind]
  · intro hall
    have hfind : pairingTable.find? (rowValid faced (sortByGo (pairLe buch) group)) =
        none :=
      List.find?_eq_none.2 fun row hrow => by rw [hall row hrow]; simp
    have hcore : pairGroupCore round faced buch group =
        greedyPairs faced (sortByGo (pairLe buch) group) := by
      unfold pairGroupCore
      rw [if_neg hne1, if_pos h45, hfind]
    have hslen : (sortByGo (pairLe buch) group).length = group.length :=
      (sortByGo_perm (pairLe buch) group).length_eq
    have hperm : List.Perm
        (flattenPairs (greedyPairs faced (sortByGo (pairLe buch) group)))
        (sortByGo (pairLe buch) group) :=
      greedyPairs_perm faced _ (by rw [hslen, h6]; omega)
    refine ⟨hcore, ?_, hperm⟩
    have hlen := hperm.length_eq
    rw [flattenPairs_length, hslen, h6] at hlen
    omega

theorem round45_priority_table_witness :
    pairGroupCore 4 facedAllW (List.replicate 7 0) groupW =
      greedyPairs facedAllW (sortByGo (pairLe (List.replicate 7 0)) groupW)
    ∧ (greedyPairs facedAllW (sortByGo (pairLe (List.replicate 7 0)) groupW)).length = 3
    ∧ List.Perm
        (flattenPairs (greedyPairs facedAllW (sortByGo (pairLe (List.replicate 7 0)) groupW)))
        (sortByGo (pairLe (List.replicate 7 0)) groupW) :=
  (round45_priority_table 4 facedAllW (List.replicate 7 0) groupW
    (Or.inl rfl) (by decide)).2 (by decide)

/-- Projection shapes of the constructors, for fvar-friendly rewriting. -/
theorem recOf_def (ss : SwissSystem) (s : ℕ) : recOf ss s = ss.records.getD s ⟨0, 0⟩ := rfl

theorem remOf_def (ss : SwissSystem) (s : ℕ) : remOf ss s = ss.Remaining.getD s false := rfl

theorem finOf_def (ss : SwissSystem) (s : ℕ) : finOf ss s = ss.Finished.getD s false := rfl

theorem Reset_records (ss : SwissSystem) : (Reset ss).records =
    ss.Teams.foldl (fun l t => l.set t.Seed ⟨0, 0⟩) ss.records := rfl

theorem Reset_Remaining (ss : SwissSystem) : (Reset ss).Remaining =
    ss.Teams.foldl (fun l t => l.set t.Seed true) ss.Remaining := rfl

theorem Reset_Finished (ss : SwissSystem) : (Reset ss).Finished =
    ss.Teams.foldl (fun l t => l.set t.Seed false) ss.Finished := rfl

theorem New_Teams (teams : List Team) (prob : ℕ → ℕ → ℚ) (rng : ℕ → ℚ) :
    (NewSwissSystem teams prob rng).Teams = teams := rfl

theorem New_records (teams : List Team) (prob : ℕ → ℕ → ℚ) (rng : ℕ → ℚ) :
    (NewSwissSystem teams prob rng).records =
      List.replicate (teams.foldl (fun m t => max m t.Seed) 0 + 1) ⟨0, 0⟩ := rfl

theorem New_Remaining (teams : List Team) (prob : ℕ → ℕ → ℚ) (rng : ℕ → ℚ) :
    (NewSwissSystem teams prob rng).Remaining =
      teams.foldl (fun rem t => rem.set t.Seed true)
        (List.replicate (teams.foldl (fun m t => max m t.Seed) 0 + 1) false) := rfl

theorem New_Finished (teams : List Team) (prob : ℕ → ℕ → ℚ) (rng : ℕ → ℚ) :
    (NewSwissSystem teams prob rng).Finished =
      List.replicate (teams.foldl (fun m t => max m t.Seed) 0 + 1) false := rfl

/-- Reading back a slice after the per-team constant-write loops of
`Reset` and `NewSwissSystem`. -/
theorem getD_foldl_set (teams : List Team) (l : List α) (v d : α) (s : ℕ) :
    (teams.foldl (fun acc t => acc.set t.Seed v) l).getD s d =
      if s ∈ seedsOf teams ∧ s < l.length then v else l.getD s d := by
  induction teams generalizing l with
  | nil => simp [seedsOf]
  | cons t ts ih =>
    rw [List.foldl_cons, ih]
    rw [List.length_set]
    by_cases hmem : s ∈ seedsOf ts ∧ s < l.length
    · rw [if_pos hmem, if_pos ⟨by simp [seedsOf]; right; simpa [seedsOf] using hmem.1, hmem.2⟩]
    · rw [if_neg hmem]
      by_cases hts : s = t.Seed
      · by_cases hlt : s < l.length
        · rw [hts, getD_set_self _ _ _ _ (by rwa [hts] at hlt)]
          rw [if_pos ⟨by simp [seedsOf], by rwa [hts] at hlt⟩]
        · rw [List.set_eq_of_length_le (by omega)]
          rw [if_neg (fun hc => hlt hc.2)]
      · rw [getD_set_ne _ _ _ (fun h => hts h.symm)]
        have hcond : ¬(s ∈ seedsOf (t :: ts) ∧ s < l.length) := by
          intro ⟨hin, hlt⟩
          rcases (by simpa [seedsOf] using hin : s = t.Seed ∨ s ∈ seedsOf ts) with h | h
          · exact hts h
          · exact hmem ⟨h, hlt⟩
        rw [if_neg hcond]

theorem foldl_set_length (teams : List Team) (l : List α) (v : α) :
    (teams.foldl (fun acc t => acc.set t.Seed v) l).length = l.length := by
  induction teams generalizing l with
  | nil => rfl
  | cons t ts ih => rw [List.foldl_cons, ih, List.length_set]

theorem seeds16_bound : ∀ t ∈ teams16, t.Seed < 17 ∧ t.Seed ∈ seedsOf teams16 := by
  decide

theorem maxSeed16 : teams16.foldl (fun m t => max m t.Seed) 0 + 1 = 17 := by decide

/-- `GoodState 0` holds right after `Reset` of the standard bracket. -/
theorem goodState_zero (prob : ℕ → ℕ → ℚ) (rng : ℕ → ℚ) :
    GoodState 0 (Reset (NewSwissSystem teams16 prob rng)) := by
  have hrec : ∀ t ∈ teams16,
      recOf (Reset (NewSwissSystem teams16 prob rng)) t.Seed = ⟨0, 0⟩ := by
    intro t ht
    rw [recOf_def, Reset_records, New_Teams, New_records, getD_foldl_set,
      List.length_replicate, maxSeed16]
    rw [if_pos ⟨(seeds16_bound t ht).2, (seeds16_bound t ht).1⟩]
  have hrem : ∀ t ∈ teams16,
      remOf (Reset (NewSwissSystem teams16 prob rng)) t.Seed = true := by
    intro t ht
    rw [remOf_def, Reset_Remaining, New_Teams, New_Remaining, getD_foldl_set,
      foldl_set_length, List.length_replicate, maxSeed16]
    rw [if_pos ⟨(seeds16_bound t ht).2, (seeds16_bound t ht).1⟩]
  have hfin : ∀ t ∈ teams16,
      finOf (Reset (NewSwissSystem teams16 prob rng)) t.Seed = false := by
    intro t ht
    rw [finOf_def, Reset_Finished, New_Teams, New_Finished, getD_foldl_set,
      List.length_replicate, maxSeed16]
    rw [if_pos ⟨(seeds16_bound t ht).2, (seeds16_bound t ht).1⟩]
  refine ⟨rfl, rfl, ?_, ?_, ?_, ?_, ?_, ?_⟩
  · rw [Reset_records, New_Teams, New_records, foldl_set_length,
      List.length_replicate, maxSeed16]
  · rw [Reset_Remaining, New_Teams, New_Remaining, foldl_set_length,
      foldl_set_length, List.length_replicate, maxSeed16]
  · rw [Reset_Finished, New_Teams, New_Finished, foldl_set_length,
      List.length_replicate, maxSeed16]
  · have hmapc : (teams16.map fun t =>
        recOf (Reset (NewSwissSystem teams16 prob rng)) t.Seed) =
        teams16.map fun _ => (⟨0, 0⟩ : Record) := by
      apply List.map_congr_left
      intro t ht
      exact hrec t ht
    rw [hmapc]
    have hconst : (teams16.map fun _ => (⟨0, 0⟩ : Record)) =
        List.replicate 16 ⟨0, 0⟩ := by decide
    rw [hconst]
    exact List.Perm.refl _
  · intro t ht
    rw [hrem t ht, hrec t ht]
    rfl
  · intro t ht
    rw [hfin t ht, hrem t ht]
    rfl

/-! ### Effects of one match on records and flags -/

theorem reach3_beq (r : Record) :
    (r.Wins == 3 || r.Losses == 3) = decide (r.Wins = 3 ∨ r.Losses = 3) := by
  by_cases h1 : r.Wins = 3 <;> by_cases h2 : r.Losses = 3 <;> simp [h1, h2]

theorem flagsFold_frame (rlist : List Record) (a b : Team) (Rem Fin : List Bool)
    (s : ℕ) (hsa : s ≠ a.Seed) (hsb : s ≠ b.Seed) :
    (flagsFold rlist a b (Rem, Fin)).1.getD s false = Rem.getD s false ∧
      (flagsFold rlist a b (Rem, Fin)).2.getD s false = Fin.getD s false := by
  unfold flagsFold
  simp only [List.foldl_cons, List.foldl_nil]
  rw [reach3_beq, reach3_beq]
  by_cases hca : (rlist.getD a.Seed ⟨0, 0⟩).Wins = 3 ∨ (rlist.getD a.Seed ⟨0, 0⟩).Losses = 3 <;>
    by_cases hcb : (rlist.getD b.Seed ⟨0, 0⟩).Wins = 3 ∨ (rlist.getD b.Seed ⟨0, 0⟩).Losses = 3
  · rw [decide_eq_true hca, decide_eq_true hcb]
    simp only [eq_self_iff_true, if_true]
    constructor <;>
      rw [getD_set_ne _ _ _ (fun h => hsb h.symm), getD_set_ne _ _ _ (fun h => hsa h.symm)]
  · rw [decide_eq_true hca, decide_eq_false hcb]
    simp only [eq_self_iff_true, if_true, Bool.false_eq_true, if_false]
    constructor <;> rw [getD_set_ne _ _ _ (fun h => hsa h.symm)]
  · rw [decide_eq_false hca, decide_eq_true hcb]
    simp only [eq_self_iff_true, if_true, Bool.false_eq_true, if_false]
    constructor <;> rw [getD_set_ne _ _ _ (fun h => hsb h.symm)]
  · rw [decide_eq_false hca, decide_eq_false hcb]
    simp

theorem flagsFold_lengths (rlist : List Record) (a b : Team) (Rem Fin : List Bool) :
    (flagsFold rlist a b (Rem, Fin)).1.length = Rem.length ∧
      (flagsFold rlist a b (Rem, Fin)).2.length = Fin.length := by
  unfold flagsFold
  simp only [List.foldl_cons, List.foldl_nil]
  rw [reach3_beq, reach3_beq]
  by_cases hca : (rlist.getD a.Seed ⟨0, 0⟩).Wins = 3 ∨ (rlist.getD a.Seed ⟨0, 0⟩).Losses = 3 <;>
    by_cases hcb : (rlist.getD b.Seed ⟨0, 0⟩).Wins = 3 ∨ (rlist.getD b.Seed ⟨0, 0⟩).Losses = 3
  · rw [decide_eq_true hca, decide_eq_true hcb]
    simp [List.length_set]
  · rw [decide_eq_true hca, decide_eq_false hcb]
    simp [List.length_set]
  · rw [decide_eq_false hca, decide_eq_true hcb]
    simp [List.length_set]
  · rw [decide_eq_false hca, decide_eq_false hcb]
    simp

theorem flagsFold_at (rlist : List Record) (a b : Team) (Rem Fin : List Bool)
    (hab : a.Seed ≠ b.Seed) (har : a.Seed < Rem.length) (hbr : b.Seed < Rem.length)
    (haf : a.Seed < Fin.length) (hbf : b.Seed < Fin.length)
    (s : ℕ) (hs : s = a.Seed ∨ s = b.Seed) :
    (flagsFold rlist a b (Rem, Fin)).1.getD s false =
      (if (rlist.getD s ⟨0, 0⟩).Wins = 3 ∨ (rlist.getD s ⟨0, 0⟩).Losses = 3
        then false else Rem.getD s false) ∧
    (flagsFold rlist a b (Rem, Fin)).2.getD s false =
      (if (rlist.getD s ⟨0, 0⟩).Wins = 3 ∨ (rlist.getD s ⟨0, 0⟩).Losses = 3
        then true else Fin.getD s false) := by
  unfold flagsFold
  simp only [List.foldl_cons, List.foldl_nil]
  rw [reach3_beq, reach3_beq]
  by_cases hca : (rlist.getD a.Seed ⟨0, 0⟩).Wins = 3 ∨ (rlist.getD a.Seed ⟨0, 0⟩).Losses = 3 <;>
    by_cases hcb : (rlist.getD b.Seed ⟨0, 0⟩).Wins = 3 ∨ (rlist.getD b.Seed ⟨0, 0⟩).Losses = 3
  · rw [decide_eq_true hca, decide_eq_true hcb]
    simp only [eq_self_iff_true, if_true]
    rcases hs with hs | hs <;> subst hs
    · constructor
      · rw [getD_set_ne _ _ _ (fun h => hab h.symm), getD_set_self _ _ _ _ har, if_pos hca]
      · rw [getD_set_ne _ _ _ (fun h => hab h.symm), getD_set_self _ _ _ _ haf, if_pos hca]
    · constructor
      · rw [getD_set_self _ _ _ _ (by simpa using hbr), if_pos hcb]
      · rw [getD_set_self _ _ _ _ (by simpa using hbf), if_pos hcb]
  · rw [decide_eq_true hca, decide_eq_false hcb]
    simp only [eq_self_iff_true, if_true, Bool.false_eq_true, if_false]
    rcases hs with hs | hs <;> subst hs
    · constructor
      · rw [getD_set_self _ _ _ _ har, if_pos hca]
      · rw [getD_set_self _ _ _ _ haf, if_pos hca]
    · constructor
      · rw [getD_set_ne _ _ _ hab, if_neg hcb]
      · rw [getD_set_ne _ _ _ hab, if_neg hcb]
  · rw [decide_eq_false hca, decide_eq_true hcb]
    simp only [eq_self_iff_true, if_true, Bool.false_eq_true, if_false]
    rcases hs with hs | hs <;> subst hs
    · constructor
      · rw [getD_set_ne _ _ _ (fun h => hab h.symm), if_neg hca]
      · rw [getD_set_ne _ _ _ (fun h => hab h.symm), if_neg hca]
    · constructor
      · rw [getD_set_self _ _ _ _ hbr, if_pos hcb]
      · rw [getD_set_self _ _ _ _ hbf, if_pos hcb]
  · rw [decide_eq_false hca, decide_eq_false hcb]
    simp only [Bool.false_eq_true, if_false]
    rcases hs with hs | hs <;> subst hs
    · rw [if_neg hca, if_neg hca]
      exact ⟨rfl, rfl⟩
    · rw [if_neg hcb, if_neg hcb]
      exact ⟨rfl, rfl⟩

theorem AMR_Teams (ss : SwissSystem) (a b : Team) (w : Bool) (idx : ℕ) :
    (applyMatchResult ss a b w idx).Teams = ss.Teams := rfl

theorem AMR_Round (ss : SwissSystem) (a b : Team) (w : Bool) (idx : ℕ) :
    (applyMatchResult ss a b w idx).Round = ss.Round := rfl

theorem AMR_CB (ss : SwissSystem) (a b : Team) (w : Bool) (idx : ℕ) :
    (applyMatchResult ss a b w idx).CurrentBuchholz = ss.CurrentBuchholz := rfl

theorem AMR_records_def (ss : SwissSystem) (a b : Team) (w : Bool) (idx : ℕ) :
    (applyMatchResult ss a b w idx).records =
      if w then
        (ss.records.set a.Seed (winRec (recOf ss a.Seed))).set b.Seed
          (loseRec ((ss.records.set a.Seed (winRec (recOf ss a.Seed))).getD b.Seed ⟨0, 0⟩))
      else
        (ss.records.set a.Seed (loseRec (recOf ss a.Seed))).set b.Seed
          (winRec ((ss.records.set a.Seed (loseRec (recOf ss a.Seed))).getD b.Seed ⟨0, 0⟩)) := rfl

theorem AMR_Remaining_def (ss : SwissSystem) (a b : Team) (w : Bool) (idx : ℕ) :
    (applyMatchResult ss a b w idx).Remaining =
      (if matchIsBO3 ss a then
        flagsFold (applyMatchResult ss a b w idx).records a b (ss.Remaining, ss.Finished)
      else (ss.Remaining, ss.Finished)).1 := rfl

theorem AMR_Finished_def (ss : SwissSystem) (a b : Team) (w : Bool) (idx : ℕ) :
    (applyMatchResult ss a b w idx).Finished =
      (if matchIsBO3 ss a then
        flagsFold (applyMatchResult ss a b w idx).records a b (ss.Remaining, ss.Finished)
      else (ss.Remaining, ss.Finished)).2 := rfl

theorem applyMatchResult_effects (ss : SwissSystem) (a b : Team) (w : Bool) (idx : ℕ)
    (ha : a.Seed < ss.records.length) (hb : b.Seed < ss.records.length)
    (har : a.Seed < ss.Remaining.length) (hbr : b.Seed < ss.Remaining.length)
    (haf : a.Seed < ss.Finished.length) (hbf : b.Seed < ss.Finished.length)
    (hab : a.Seed ≠ b.Seed)
    (hrec : recOf ss a.Seed = recOf ss b.Seed)
    (hw2 : (recOf ss a.Seed).Wins ≤ 2) (hl2 : (recOf ss a.Seed).Losses ≤ 2) :
    ((applyMatchResult ss a b w idx).Teams = ss.Teams ∧
      (applyMatchResult ss a b w idx).Round = ss.Round ∧
      (applyMatchResult ss a b w idx).CurrentBuchholz = ss.CurrentBuchholz ∧
      (applyMatchResult ss a b w idx).records.length = ss.records.length ∧
      (applyMatchResult ss a b w idx).Remaining.length = ss.Remaining.length ∧
      (applyMatchResult ss a b w idx).Finished.length = ss.Finished.length)
    ∧ (∀ s, s ≠ a.Seed → s ≠ b.Seed →
        recOf (applyMatchResult ss a b w idx) s = recOf ss s ∧
        remOf (applyMatchResult ss a b w idx) s = remOf ss s ∧
        finOf (applyMatchResult ss a b w idx) s = finOf ss s)
    ∧ List.Perm
        [recOf (applyMatchResult ss a b w idx) a.Seed,
          recOf (applyMatchResult ss a b w idx) b.Seed]
        [winRec (recOf ss a.Seed), loseRec (recOf ss a.Seed)]
    ∧ (∀ s, s = a.Seed ∨ s = b.Seed →
        (remOf (applyMatchResult ss a b w idx) s =
          if (recOf (applyMatchResult ss a b w idx) s).Wins = 3 ∨
              (recOf (applyMatchResult ss a b w idx) s).Losses = 3
          then false else remOf ss s)
        ∧ (finOf (applyMatchResult ss a b w idx) s =
          if (recOf (applyMatchResult ss a b w idx) s).Wins = 3 ∨
              (recOf (applyMatchResult ss a b w idx) s).Losses = 3
          then true else finOf ss s)) := by
  have hrecs := applyMatchResult_records ss a b w idx ha hb hab
  refine ⟨⟨rfl, rfl, rfl, ?_, ?_, ?_⟩, ?_, ?_, ?_⟩
  · rw [AMR_records_def]
    cases w <;> simp [List.length_set]
  · rw [AMR_Remaining_def]
    by_cases hbo3 : matchIsBO3 ss a = true
    · rw [hbo3]
      simp only [eq_self_iff_true, if_true]
      exact (flagsFold_lengths _ a b ss.Remaining ss.Finished).1
    · rw [Bool.not_eq_true] at hbo3
      rw [hbo3]
      simp only [Bool.false_eq_true, if_false]
  · rw [AMR_Finished_def]
    by_cases hbo3 : matchIsBO3 ss a = true
    · rw [hbo3]
      simp only [eq_self_iff_true, if_true]
      exact (flagsFold_lengths _ a b ss.Remaining ss.Finished).2
    · rw [Bool.not_eq_true] at hbo3
      rw [hbo3]
      simp only [Bool.false_eq_true, if_false]
  · intro s hsa hsb
    refine ⟨?_, ?_, ?_⟩
    · rw [recOf_def, recOf_def, AMR_records_def]
      cases w <;>
        simp only [Bool.false_eq_true, if_false, if_true] <;>
        rw [getD_set_ne _ _ _ (fun h => hsb h.symm), getD_set_ne _ _ _ (fun h => hsa h.symm)]
    · rw [remOf_def, remOf_def, AMR_Remaining_def]
      by_cases hbo3 : matchIsBO3 ss a = true
      · rw [hbo3]
        simp only [eq_self_iff_true, if_true]
        exact (flagsFold_frame _ a b ss.Remaining ss.Finished s hsa hsb).1
      · rw [Bool.not_eq_true] at hbo3
        rw [hbo3]
        simp only [Bool.false_eq_true, if_false]
    · rw [finOf_def, finOf_def, AMR_Finished_def]
      by_cases hbo3 : matchIsBO3 ss a = true
      · rw [hbo3]
        simp only [eq_self_iff_true, if_true]
        exact (flagsFold_frame _ a b ss.Remaining ss.Finished s hsa hsb).2
      · rw [Bool.not_eq_true] at hbo3
        rw [hbo3]
        simp only [Bool.false_eq_true, if_false]
  · cases w
    · rw [hrecs.1, hrecs.2]
      simp only [Bool.false_eq_true, if_false]
      rw [← hrec]
      exact List.Perm.swap _ _ _
    · rw [hrecs.1, hrecs.2]
      simp only [if_true]
      rw [← hrec]
  · intro s hs
    by_cases hbo3 : matchIsBO3 ss a = true
    · have h1 := flagsFold_at ((applyMatchResult ss a b w idx).records) a b
        ss.Remaining ss.Finished hab har hbr haf hbf s hs
      constructor
      · rw [remOf_def, AMR_Remaining_def, hbo3]
        simp only [eq_self_iff_true, if_true]
        rw [h1.1, recOf_def, remOf_def]
      · rw [finOf_def, AMR_Finished_def, hbo3]
        simp only [eq_self_iff_true, if_true]
        rw [h1.2, recOf_def, finOf_def]
    · have hno2 : (recOf ss a.Seed).Wins ≠ 2 ∧ (recOf ss a.Seed).Losses ≠ 2 := by
        rw [Bool.not_eq_true] at hbo3
        unfold matchIsBO3 at hbo3
        simp only [Bool.or_eq_false_iff, beq_eq_false_iff_ne, ne_eq] at hbo3
        exact hbo3
      have hreach : ¬((recOf (applyMatchResult ss a b w idx) s).Wins = 3 ∨
          (recOf (applyMatchResult ss a b w idx) s).Losses = 3) := by
        rcases hs with hs | hs <;> subst hs
        · rw [hrecs.1]
          cases w <;>
            simp only [Bool.false_eq_true, if_false, if_true, winRec, loseRec] <;>
            intro hcon <;> rcases hcon with hcon | hcon <;> omega
        · rw [hrecs.2, ← hrec]
          cases w <;>
            simp only [Bool.false_eq_true, if_false, if_true, winRec, loseRec] <;>
            intro hcon <;> rcases hcon with hcon | hcon <;> omega
      rw [Bool.not_eq_true] at hbo3
      constructor
      · rw [remOf_def, AMR_Remaining_def, hbo3]
        simp only [Bool.false_eq_true, if_false, if_neg hreach]
        rfl
      · rw [finOf_def, AMR_Finished_def, hbo3]
        simp only [Bool.false_eq_true, if_false, if_neg hreach]
        rfl

theorem simulateMatch_is_AMR (ss : SwissSystem) (a b : Team) :
    SimulateMatch ss a b =
      applyMatchResult ss a b (matchDraw ss a b).1 (matchDraw ss a b).2 := rfl

theorem simulateMatch_effects (ss : SwissSystem) (a b : Team)
    (ha : a.Seed < ss.records.length) (hb : b.Seed < ss.records.length)
    (har : a.Seed < ss.Remaining.length) (hbr : b.Seed < ss.Remaining.length)
    (haf : a.Seed < ss.Finished.length) (hbf : b.Seed < ss.Finished.length)
    (hab : a.Seed ≠ b.Seed)
    (hrec : recOf ss a.Seed = recOf ss b.Seed)
    (hw2 : (recOf ss a.Seed).Wins ≤ 2) (hl2 : (recOf ss a.Seed).Losses ≤ 2) :
    ((SimulateMatch ss a b).Teams = ss.Teams ∧
      (SimulateMatch ss a b).Round = ss.Round ∧
      (SimulateMatch ss a b).CurrentBuchholz = ss.CurrentBuchholz ∧
      (SimulateMatch ss a b).records.length = ss.records.length ∧
      (SimulateMatch ss a b).Remaining.length = ss.Remaining.length ∧
      (SimulateMatch ss a b).Finished.length = ss.Finished.length)
    ∧ (∀ s, s ≠ a.Seed → s ≠ b.Seed →
        recOf (SimulateMatch ss a b) s = recOf ss s ∧
        remOf (SimulateMatch ss a b) s = remOf ss s ∧
        finOf (SimulateMatch ss a b) s = finOf ss s)
    ∧ List.Perm
        [recOf (SimulateMatch ss a b) a.Seed, recOf (SimulateMatch ss a b) b.Seed]
        [winRec (recOf ss a.Seed), loseRec (recOf ss a.Seed)]
    ∧ (∀ s, s = a.Seed ∨ s = b.Seed →
        (remOf (SimulateMatch ss a b) s =
          if (recOf (SimulateMatch ss a b) s).Wins = 3 ∨
              (recOf (SimulateMatch ss a b) s).Losses = 3
          then false else remOf ss s)
        ∧ (finOf (SimulateMatch ss a b) s =
          if (recOf (SimulateMatch ss a b) s).Wins = 3 ∨
              (recOf (SimulateMatch ss a b) s).Losses = 3
          then true else finOf ss s)) :=
  applyMatchResult_effects ss a b (matchDraw ss a b).1 (matchDraw ss a b).2
    ha hb har hbr haf hbf hab hrec hw2 hl2

theorem mem_flattenPairs (ps : List pair) (q : pair) (hq : q ∈ ps) :
    q.1 ∈ flattenPairs ps ∧ q.2 ∈ flattenPairs ps := by
  induction ps with
  | nil => cases hq
  | cons p rest ih =>
    rw [flattenPairs_cons]
    rcases List.mem_cons.1 hq with h | h
    · subst h
      exact ⟨List.mem_cons_self _ _, List.mem_cons_of_mem _ (List.mem_cons_self _ _)⟩
    · exact ⟨List.mem_cons_of_mem _ (List.mem_cons_of_mem _ (ih h).1),
        List.mem_cons_of_mem _ (List.mem_cons_of_mem _ (ih h).2)⟩

theorem flattenPairs_mem (ps : List pair) (t : Team) (ht : t ∈ flattenPairs ps) :
    ∃ q ∈ ps, t = q.1 ∨ t = q.2 := by
  induction ps with
  | nil => cases ht
  | cons p rest ih =>
    rw [flattenPairs_cons] at ht
    rcases List.mem_cons.1 ht with h | h
    · exact ⟨p, List.mem_cons_self _ _, Or.inl h⟩
    · rcases List.mem_cons.1 h with h2 | h2
      · exact ⟨p, List.mem_cons_self _ _, Or.inr h2⟩
      · obtain ⟨q, hq, hor⟩ := ih h2
        exact ⟨q, List.mem_cons_of_mem _ hq, hor⟩

theorem foldMatches_spec (ps : List pair) (S0 : SwissSystem)
    (hnd : ((flattenPairs ps).map Team.Seed).Nodup)
    (hbound : ∀ t ∈ flattenPairs ps,
      t.Seed < S0.records.length ∧ t.Seed < S0.Remaining.length ∧
        t.Seed < S0.Finished.length)
    (hok : ∀ q ∈ ps, recOf S0 q.1.Seed = recOf S0 q.2.Seed ∧
      (recOf S0 q.1.Seed).Wins ≤ 2 ∧ (recOf S0 q.1.Seed).Losses ≤ 2) :
    FoldSpec S0 (foldMatches S0 ps) ps := by
  induction ps generalizing S0 with
  | nil =>
    exact ⟨rfl, rfl, rfl, rfl, rfl, rfl, fun s _ => ⟨rfl, rfl, rfl⟩,
      fun q hq => absurd hq (List.not_mem_nil q),
      fun q hq => absurd hq (List.not_mem_nil q)⟩
  | cons q rest ih =>
    have hq1 := hbound q.1 (by rw [flattenPairs_cons]; exact List.mem_cons_self _ _)
    have hq2 := hbound q.2
      (by rw [flattenPairs_cons]; exact List.mem_cons_of_mem _ (List.mem_cons_self _ _))
    have hokq := hok q (List.mem_cons_self _ _)
    rw [flattenPairs_cons, List.map_cons, List.map_cons, List.nodup_cons,
      List.nodup_cons] at hnd
    obtain ⟨h1, h2, hndr⟩ := hnd
    have hab : q.1.Seed ≠ q.2.Seed := fun h => h1 (by rw [h]; exact List.mem_cons_self _ _)
    have h1r : q.1.Seed ∉ (flattenPairs rest).map Team.Seed :=
      fun h => h1 (List.mem_cons_of_mem _ h)
    obtain ⟨⟨et, er, ec, elr, elm, elf⟩, efr, epr, epf⟩ :=
      simulateMatch_effects S0 q.1 q.2 hq1.1 hq2.1 hq1.2.1 hq2.2.1 hq1.2.2 hq2.2.2
        hab hokq.1 hokq.2.1 hokq.2.2
    set S1 := SimulateMatch S0 q.1 q.2 with hS1
    have hrestne : ∀ t ∈ flattenPairs rest, t.Seed ≠ q.1.Seed ∧ t.Seed ≠ q.2.Seed := by
      intro t ht
      exact ⟨fun h => h1r (h ▸ List.mem_map_of_mem _ ht),
        fun h => h2 (h ▸ List.mem_map_of_mem _ ht)⟩
    have hframe1 : ∀ t ∈ flattenPairs rest, recOf S1 t.Seed = recOf S0 t.Seed ∧
        remOf S1 t.Seed = remOf S0 t.Seed ∧ finOf S1 t.Seed = finOf S0 t.Seed := by
      intro t ht
      exact efr t.Seed (hrestne t ht).1 (hrestne t ht).2
    have ihs := ih S1 hndr
      (by
        intro t ht
        rw [elr, elm, elf]
        exact hbound t
          (by rw [flattenPairs_cons]
              exact List.mem_cons_of_mem _ (List.mem_cons_of_mem _ ht)))
      (by
        intro p hp
        rw [(hframe1 p.1 (mem_flattenPairs rest p hp).1).1,
          (hframe1 p.2 (mem_flattenPairs rest p hp).2).1]
        exact hok p (List.mem_cons_of_mem _ hp))
    show FoldSpec S0 (foldMatches S1 rest) (q :: rest)
    refine ⟨ihs.teams_eq.trans et, ihs.round_eq.trans er, ihs.cb_eq.trans ec,
      ihs.len_rec.trans elr, ihs.len_rem.trans elm, ihs.len_fin.trans elf,
      ?_, ?_, ?_⟩
    · intro s hs
      rw [flattenPairs_cons, List.map_cons, List.map_cons] at hs
      simp only [List.mem_cons, not_or] at hs
      have hf2 := ihs.frame s hs.2.2
      have hf1 := efr s hs.1 hs.2.1
      exact ⟨hf2.1.trans hf1.1, hf2.2.1.trans hf1.2.1, hf2.2.2.trans hf1.2.2⟩
    · intro p hp
      rcases List.mem_cons.1 hp with h | h
      · subst h
        rw [(ihs.frame p.1.Seed h1r).1, (ihs.frame p.2.Seed h2).1]
        exact epr
      · have hthis := ihs.pair_recs p h
        rw [(hframe1 p.1 (mem_flattenPairs rest p h).1).1] at hthis
        exact hthis
    · intro p hp s hsuse
      rcases List.mem_cons.1 hp with h | h
      · subst h
        have hmem : s ∉ (flattenPairs rest).map Team.Seed := by
          rcases hsuse with h | h <;> subst h
          · exact h1r
          · exact h2
        rw [(ihs.frame s hmem).1, (ihs.frame s hmem).2.1, (ihs.frame s hmem).2.2]
        exact epf s hsuse
      · have hsrest : remOf S1 s = remOf S0 s ∧ finOf S1 s = finOf S0 s := by
          rcases hsuse with hse | hse <;> subst hse
          · exact ⟨(hframe1 p.1 (mem_flattenPairs rest p h).1).2.1,
              (hframe1 p.1 (mem_flattenPairs rest p h).1).2.2⟩
          · exact ⟨(hframe1 p.2 (mem_flattenPairs rest p h).2).2.1,
              (hframe1 p.2 (mem_flattenPairs rest p h).2).2.2⟩
        have hthis := ihs.pair_flags p h s hsuse
        rw [hsrest.1, hsrest.2] at hthis
        exact hthis

/-! ### Round coverage: the pairs of a round cover the active teams -/

theorem prepRound_Teams (ss : SwissSystem) : (prepRound ss).Teams = ss.Teams := rfl

theorem prepRound_records (ss : SwissSystem) : (prepRound ss).records = ss.records := rfl

theorem prepRound_Remaining (ss : SwissSystem) :
    (prepRound ss).Remaining = ss.Remaining := rfl

theorem prepRound_Finished (ss : SwissSystem) :
    (prepRound ss).Finished = ss.Finished := rfl

theorem prepRound_Round (ss : SwissSystem) : (prepRound ss).Round = ss.Round + 1 := rfl

theorem pairGroupCore_nil (round : ℕ) (faced : List (List ℕ)) (buch : List ℤ) :
    pairGroupCore round faced buch [] = [] := by
  unfold pairGroupCore
  by_cases h1 : round = 1
  · rw [if_pos h1]
    simp [sortByGo]
  · rw [if_neg h1, if_neg (fun hc => by simpa using hc.2)]
    rfl

theorem pairGroupOpt_some_perm (round : ℕ) (faced : List (List ℕ)) (buch : List ℤ)
    (g : List Team) (heven : 2 ∣ g.length) :
    List.Perm (flattenPairs ((pairGroupOpt round faced (some buch) g).getD [])) g := by
  unfold pairGroupOpt
  by_cases h0 : g.length = 0
  · rw [if_pos h0]
    rw [List.length_eq_zero] at h0
    subst h0
    exact List.Perm.refl _
  · rw [if_neg h0]
    exact pairGroupCore_perm round faced buch g heven

theorem filter_three_split {α : Type} (l : List α) (w : α → Bool) (D : α → ℤ) :
    List.Perm
      (l.filter (fun t => w t && decide (0 < D t)) ++
        (l.filter (fun t => w t && decide (D t = 0)) ++
          l.filter (fun t => w t && decide (D t < 0))))
      (l.filter w) := by
  induction l with
  | nil => exact List.Perm.refl _
  | cons t ts ih =>
    by_cases hw : w t = true
    · rcases lt_trichotomy (D t) 0 with hD | hD | hD
      · have h1 : ¬ (0 < D t) := by omega
        have h2 : ¬ (D t = 0) := by omega
        simp only [List.filter_cons, hw, Bool.true_and]
        rw [decide_eq_false h1, decide_eq_false h2, decide_eq_true hD]
        simp only [Bool.false_eq_true, if_false, eq_self_iff_true, if_true]
        exact ((List.Perm.append_left _ List.perm_middle).trans List.perm_middle).trans
          (ih.cons t)
      · have h1 : ¬ (0 < D t) := by omega
        have h3 : ¬ (D t < 0) := by omega
        simp only [List.filter_cons, hw, Bool.true_and]
        rw [decide_eq_false h1, decide_eq_true hD, decide_eq_false h3]
        simp only [Bool.false_eq_true, if_false, eq_self_iff_true, if_true]
        exact List.perm_middle.trans (ih.cons t)
      · have h2 : ¬ (D t = 0) := by omega
        have h3 : ¬ (D t < 0) := by omega
        simp only [List.filter_cons, hw, Bool.true_and]
        rw [decide_eq_true hD, decide_eq_false h2, decide_eq_false h3]
        simp only [Bool.false_eq_true, if_false, eq_self_iff_true, if_true]
        exact ih.cons t
    · rw [Bool.not_eq_true] at hw
      simp only [List.filter_cons, hw, Bool.false_and, Bool.false_eq_true, if_false]
      exact ih

theorem pairsOfRound_flatten_perm (teams : List Team) (recs : List Record)
    (faced : List (List ℕ)) (rem : List Bool) (round : ℕ)
    (h1 : 2 ∣ (posGroupOf teams recs rem).length)
    (h2 : 2 ∣ (evenGroupOf teams recs rem).length)
    (h3 : 2 ∣ (negGroupOf teams recs rem).length) :
    List.Perm (flattenPairs (pairsOfRound teams recs faced rem round))
      (teams.filter fun t => rem.getD t.Seed false) := by
  unfold pairsOfRound
  rw [flattenPairs_append, flattenPairs_append, List.append_assoc]
  exact ((pairGroupOpt_some_perm _ _ _ _ h1).append
      ((pairGroupOpt_some_perm _ _ _ _ h2).append
        (pairGroupOpt_some_perm _ _ _ _ h3))).trans
    (filter_three_split teams (fun t => rem.getD t.Seed false)
      (fun t => (recs.getD t.Seed ⟨0, 0⟩).Diff))

theorem pairRecs_append (h : Team → Record) (l1 l2 : List pair) :
    pairRecs h (l1 ++ l2) = pairRecs h l1 ++ pairRecs h l2 := by
  induction l1 with
  | nil => rfl
  | cons q qs ih => simp [pairRecs, ih]

theorem flatten_map_perm (g h : Team → Record) (ps : List pair)
    (hp : ∀ q ∈ ps, List.Perm [g q.1, g q.2] [winRec (h q.1), loseRec (h q.1)]) :
    List.Perm ((flattenPairs ps).map g) (pairRecs h ps) := by
  induction ps with
  | nil => exact List.Perm.refl _
  | cons q rest ih =>
    rw [flattenPairs_cons, List.map_cons, List.map_cons]
    show List.Perm ([g q.1, g q.2] ++ (flattenPairs rest).map g)
      ([winRec (h q.1), loseRec (h q.1)] ++ pairRecs h rest)
    exact (hp q (List.mem_cons_self _ _)).append
      (ih fun p hp' => hp p (List.mem_cons_of_mem _ hp'))

theorem pairRecs_const (h : Team → Record) (rep : Record) (ps : List pair)
    (hc : ∀ q ∈ ps, h q.1 = rep) :
    List.Perm (pairRecs h ps)
      (List.replicate ps.length (winRec rep) ++
        List.replicate ps.length (loseRec rep)) := by
  induction ps with
  | nil => exact List.Perm.refl _
  | cons q rest ih =>
    have hq := hc q (List.mem_cons_self _ _)
    have ih' := ih fun p hp => hc p (List.mem_cons_of_mem _ hp)
    show List.Perm (winRec (h q.1) :: loseRec (h q.1) :: pairRecs h rest) _
    rw [hq, List.length_cons, List.replicate_succ, List.replicate_succ]
    exact ((ih'.cons _).trans List.perm_middle.symm).cons _

theorem group_length_countP (ss : SwissSystem) (k : ℕ) (G : GoodState k ss)
    (f : Record → Bool) :
    (teams16.filter fun t => remOf ss t.Seed && f (recOf ss t.Seed)).length =
      (expectedRecords k).countP fun r => activeP r && f r := by
  rw [← List.countP_eq_length_filter]
  have hcongr : ∀ t ∈ teams16, (remOf ss t.Seed && f (recOf ss t.Seed)) = true ↔
      (activeP (recOf ss t.Seed) && f (recOf ss t.Seed)) = true := by
    intro t ht
    rw [G.rem_eq t ht]
    exact Iff.rfl
  rw [List.countP_congr hcongr]
  rw [show (fun t : Team => activeP (recOf ss t.Seed) && f (recOf ss t.Seed)) =
      ((fun r => activeP r && f r) ∘ fun t : Team => recOf ss t.Seed) from rfl]
  rw [← List.countP_map]
  exact G.recs_perm.countP_eq _

theorem group_rec_rep (ss : SwissSystem) (k : ℕ) (G : GoodState k ss)
    (f : Record → Bool) (rep : Record)
    (huniq : ∀ r ∈ expectedRecords k, (activeP r && f r) = true → r = rep) :
    ∀ t ∈ teams16.filter fun t => remOf ss t.Seed && f (recOf ss t.Seed),
      recOf ss t.Seed = rep := by
  intro t ht
  rw [List.mem_filter] at ht
  have hmem : recOf ss t.Seed ∈ expectedRecords k :=
    (G.recs_perm.mem_iff).1 (List.mem_map_of_mem _ ht.1)
  apply huniq _ hmem
  have h2 : activeP (recOf ss t.Seed) = remOf ss t.Seed := (G.rem_eq t ht.1).symm
  rw [h2]
  exact ht.2

/-! ### One round preserves the boundary invariant -/

theorem goodState_step (k : ℕ) (ss : SwissSystem) (G : GoodState k ss)
    (rp re rn : Record)
    (hup : ∀ r ∈ expectedRecords k, (activeP r && decide (0 < r.Diff)) = true → r = rp)
    (hue : ∀ r ∈ expectedRecords k, (activeP r && decide (r.Diff = 0)) = true → r = re)
    (hun : ∀ r ∈ expectedRecords k, (activeP r && decide (r.Diff < 0)) = true → r = rn)
    (he1 : 2 ∣ (expectedRecords k).countP fun r => activeP r && decide (0 < r.Diff))
    (he2 : 2 ∣ (expectedRecords k).countP fun r => activeP r && decide (r.Diff = 0))
    (he3 : 2 ∣ (expectedRecords k).countP fun r => activeP r && decide (r.Diff < 0))
    (hnext : List.Perm (stepRecs k rp re rn) (expectedRecords (k + 1))) :
    GoodState (k + 1) (SimulateRound ss) := by
  have hlen1 : (posGroupOf teams16 ss.records ss.Remaining).length =
      (expectedRecords k).countP (fun r => activeP r && decide (0 < r.Diff)) :=
    group_length_countP ss k G fun r => decide (0 < r.Diff)
  have hlen2 : (evenGroupOf teams16 ss.records ss.Remaining).length =
      (expectedRecords k).countP (fun r => activeP r && decide (r.Diff = 0)) :=
    group_length_countP ss k G fun r => decide (r.Diff = 0)
  have hlen3 : (negGroupOf teams16 ss.records ss.Remaining).length =
      (expectedRecords k).countP (fun r => activeP r && decide (r.Diff < 0)) :=
    group_length_countP ss k G fun r => decide (r.Diff < 0)
  have h1' : 2 ∣ (posGroupOf teams16 ss.records ss.Remaining).length := by
    rw [hlen1]; exact he1
  have h2' : 2 ∣ (evenGroupOf teams16 ss.records ss.Remaining).length := by
    rw [hlen2]; exact he2
  have h3' : 2 ∣ (negGroupOf teams16 ss.records ss.Remaining).length := by
    rw [hlen3]; exact he3
  have hrep1 : ∀ t ∈ posGroupOf teams16 ss.records ss.Remaining,
      recOf ss t.Seed = rp :=
    group_rec_rep ss k G (fun r => decide (0 < r.Diff)) rp hup
  have hrep2 : ∀ t ∈ evenGroupOf teams16 ss.records ss.Remaining,
      recOf ss t.Seed = re :=
    group_rec_rep ss k G (fun r => decide (r.Diff = 0)) re hue
  have hrep3 : ∀ t ∈ negGroupOf teams16 ss.records ss.Remaining,
      recOf ss t.Seed = rn :=
    group_rec_rep ss k G (fun r => decide (r.Diff < 0)) rn hun
  have hps : roundPairs ss =
      pairsOfRound teams16 ss.records ss.Faced ss.Remaining ss.Round := by
    rw [← G.teams_eq]
    rfl
  have hflat : List.Perm (flattenPairs (roundPairs ss))
      (teams16.filter fun t => remOf ss t.Seed) := by
    rw [hps]
    exact pairsOfRound_flatten_perm teams16 ss.records ss.Faced ss.Remaining
      ss.Round h1' h2' h3'
  set pA := (pairGroupOpt (ss.Round + 1) ss.Faced
      (some ((List.range ss.records.length).map fun seed =>
        buchholzOf ss.Faced ss.records seed))
      (posGroupOf teams16 ss.records ss.Remaining)).getD [] with hpA
  set pB := (pairGroupOpt (ss.Round + 1) ss.Faced
      (some ((List.range ss.records.length).map fun seed =>
        buchholzOf ss.Faced ss.records seed))
      (evenGroupOf teams16 ss.records ss.Remaining)).getD [] with hpB
  set pC := (pairGroupOpt (ss.Round + 1) ss.Faced
      (some ((List.range ss.records.length).map fun seed =>
        buchholzOf ss.Faced ss.records seed))
      (negGroupOf teams16 ss.records ss.Remaining)).getD [] with hpC
  have hdecomp : roundPairs ss = pA ++ pB ++ pC := by
    rw [hpA, hpB, hpC, ← G.teams_eq]
    rfl
  have hflatA : List.Perm (flattenPairs pA)
      (posGroupOf teams16 ss.records ss.Remaining) := by
    rw [hpA]
    exact pairGroupOpt_some_perm _ _ _ _ h1'
  have hflatB : List.Perm (flattenPairs pB)
      (evenGroupOf teams16 ss.records ss.Remaining) := by
    rw [hpB]
    exact pairGroupOpt_some_perm _ _ _ _ h2'
  have hflatC : List.Perm (flattenPairs pC)
      (negGroupOf teams16 ss.records ss.Remaining) := by
    rw [hpC]
    exact pairGroupOpt_some_perm _ _ _ _ h3'
  have hnd : ((flattenPairs (roundPairs ss)).map Team.Seed).Nodup := by
    have hsub : ((teams16.filter fun t => remOf ss t.Seed).map Team.Seed).Nodup :=
      List.Nodup.sublist (List.Sublist.map _ (List.filter_sublist teams16)) (by decide)
    exact (hflat.map Team.Seed).nodup_iff.2 hsub
  have hmemact : ∀ t ∈ flattenPairs (roundPairs ss),
      t ∈ teams16 ∧ remOf ss t.Seed = true := by
    intro t ht
    have hm := (hflat.mem_iff).1 ht
    rw [List.mem_filter] at hm
    exact hm
  have hbound : ∀ t ∈ flattenPairs (roundPairs ss),
      t.Seed < (prepRound ss).records.length ∧
        t.Seed < (prepRound ss).Remaining.length ∧
        t.Seed < (prepRound ss).Finished.length := by
    intro t ht
    have h16 := (seeds16_bound t (hmemact t ht).1).1
    refine ⟨?_, ?_, ?_⟩
    · show t.Seed < ss.records.length
      rw [G.len_rec]; exact h16
    · show t.Seed < ss.Remaining.length
      rw [G.len_rem]; exact h16
    · show t.Seed < ss.Finished.length
      rw [G.len_fin]; exact h16
  have hgrp : ∀ q ∈ roundPairs ss, ∃ rep : Record,
      recOf ss q.1.Seed = rep ∧ recOf ss q.2.Seed = rep := by
    intro q hq
    rw [hdecomp] at hq
    rcases List.mem_append.1 hq with hq' | hqC
    · rcases List.mem_append.1 hq' with hqA | hqB
      · exact ⟨rp, hrep1 q.1 ((hflatA.mem_iff).1 (mem_flattenPairs pA q hqA).1),
          hrep1 q.2 ((hflatA.mem_iff).1 (mem_flattenPairs pA q hqA).2)⟩
      · exact ⟨re, hrep2 q.1 ((hflatB.mem_iff).1 (mem_flattenPairs pB q hqB).1),
          hrep2 q.2 ((hflatB.mem_iff).1 (mem_flattenPairs pB q hqB).2)⟩
    · exact ⟨rn, hrep3 q.1 ((hflatC.mem_iff).1 (mem_flattenPairs pC q hqC).1),
        hrep3 q.2 ((hflatC.mem_iff).1 (mem_flattenPairs pC q hqC).2)⟩
  have hok : ∀ q ∈ roundPairs ss,
      recOf (prepRound ss) q.1.Seed = recOf (prepRound ss) q.2.Seed ∧
        (recOf (prepRound ss) q.1.Seed).Wins ≤ 2 ∧
        (recOf (prepRound ss) q.1.Seed).Losses ≤ 2 := by
    intro q hq
    obtain ⟨rep, hr1, hr2⟩ := hgrp q hq
    have hq1mem := (mem_flattenPairs _ q hq).1
    have hq1act := hmemact q.1 hq1mem
    have hwl : (recOf ss q.1.Seed).Wins < 3 ∧ (recOf ss q.1.Seed).Losses < 3 :=
      of_decide_eq_true ((G.rem_eq q.1 hq1act.1).symm.trans hq1act.2)
    refine ⟨hr1.trans hr2.symm, ?_, ?_⟩
    · show (recOf ss q.1.Seed).Wins ≤ 2
      omega
    · show (recOf ss q.1.Seed).Losses ≤ 2
      omega
  have FS : FoldSpec (prepRound ss) (SimulateRound ss) (roundPairs ss) :=
    foldMatches_spec (roundPairs ss) (prepRound ss) hnd hbound hok
  have hinact_seed : ∀ t : Team, remOf ss t.Seed = false →
      t.Seed ∉ (flattenPairs (roundPairs ss)).map Team.Seed := by
    intro t hf hmem
    obtain ⟨u, hu, hseq⟩ := List.mem_map.1 hmem
    have hut := (hmemact u hu).2
    rw [hseq] at hut
    exact Bool.false_ne_true (hf.symm.trans hut)
  have m5 : List.Perm
      ((teams16.filter fun t => remOf ss t.Seed).map
        fun t => recOf (SimulateRound ss) t.Seed)
      ((flattenPairs (roundPairs ss)).map fun t => recOf (SimulateRound ss) t.Seed) :=
    (hflat.map _).symm
  have m6 : List.Perm
      ((flattenPairs (roundPairs ss)).map fun t => recOf (SimulateRound ss) t.Seed)
      (pairRecs (fun t => recOf ss t.Seed) (roundPairs ss)) :=
    flatten_map_perm _ _ _ FS.pair_recs
  have hconstA : ∀ q ∈ pA, recOf ss q.1.Seed = rp := by
    intro q hq
    exact hrep1 q.1 ((hflatA.mem_iff).1 (mem_flattenPairs pA q hq).1)
  have hconstB : ∀ q ∈ pB, recOf ss q.1.Seed = re := by
    intro q hq
    exact hrep2 q.1 ((hflatB.mem_iff).1 (mem_flattenPairs pB q hq).1)
  have hconstC : ∀ q ∈ pC, recOf ss q.1.Seed = rn := by
    intro q hq
    exact hrep3 q.1 ((hflatC.mem_iff).1 (mem_flattenPairs pC q hq).1)
  have hlA : pA.length =
      ((expectedRecords k).countP fun r => activeP r && decide (0 < r.Diff)) / 2 := by
    have h2l := flattenPairs_length pA
    have hpl := hflatA.length_eq
    rw [hlen1] at hpl
    omega
  have hlB : pB.length =
      ((expectedRecords k).countP fun r => activeP r && decide (r.Diff = 0)) / 2 := by
    have h2l := flattenPairs_length pB
    have hpl := hflatB.length_eq
    rw [hlen2] at hpl
    omega
  have hlC : pC.length =
      ((expectedRecords k).countP fun r => activeP r && decide (r.Diff < 0)) / 2 := by
    have h2l := flattenPairs_length pC
    have hpl := hflatC.length_eq
    rw [hlen3] at hpl
    omega
  have m9A := pairRecs_const (fun t => recOf ss t.Seed) rp pA hconstA
  have m9B := pairRecs_const (fun t => recOf ss t.Seed) re pB hconstB
  have m9C := pairRecs_const (fun t => recOf ss t.Seed) rn pC hconstC
  rw [hlA] at m9A
  rw [hlB] at m9B
  rw [hlC] at m9C
  have mact : List.Perm
      ((teams16.filter fun t => remOf ss t.Seed).map
        fun t => recOf (SimulateRound ss) t.Seed)
      (((List.replicate
            (((expectedRecords k).countP fun r => activeP r && decide (0 < r.Diff)) / 2)
            (winRec rp) ++
          List.replicate
            (((expectedRecords k).countP fun r => activeP r && decide (0 < r.Diff)) / 2)
            (loseRec rp)) ++
        (List.replicate
            (((expectedRecords k).countP fun r => activeP r && decide (r.Diff = 0)) / 2)
            (winRec re) ++
          List.replicate
            (((expectedRecords k).countP fun r => activeP r && decide (r.Diff = 0)) / 2)
            (loseRec re))) ++
        (List.replicate
            (((expectedRecords k).countP fun r => activeP r && decide (r.Diff < 0)) / 2)
            (winRec rn) ++
          List.replicate
            (((expectedRecords k).countP fun r => activeP r && decide (r.Diff < 0)) / 2)
            (loseRec rn))) := by
    refine (m5.trans m6).trans ?_
    rw [hdecomp, pairRecs_append, pairRecs_append]
    exact (m9A.append m9B).append m9C
  have m2 : ((teams16.filter fun t => !(remOf ss t.Seed)).map
        fun t => recOf (SimulateRound ss) t.Seed) =
      (teams16.filter fun t => !(remOf ss t.Seed)).map fun t => recOf ss t.Seed := by
    apply List.map_congr_left
    intro t ht
    rw [List.mem_filter] at ht
    have hf : remOf ss t.Seed = false := by
      have hb := ht.2
      rwa [Bool.not_eq_true'] at hb
    exact (FS.frame t.Seed (hinact_seed t hf)).1
  have m3 : ((teams16.filter fun t => !(remOf ss t.Seed)).map
        fun t => recOf ss t.Seed) =
      (teams16.map fun t => recOf ss t.Seed).filter fun r => !activeP r := by
    have hq : (teams16.filter fun t => !(remOf ss t.Seed)) =
        teams16.filter ((fun r => !activeP r) ∘ fun t : Team => recOf ss t.Seed) :=
      List.filter_congr fun t ht => by rw [G.rem_eq t ht]; rfl
    rw [hq, ← List.filter_map]
  have m4 : List.Perm ((teams16.map fun t => recOf ss t.Seed).filter fun r => !activeP r)
      ((expectedRecords k).filter fun r => !activeP r) :=
    G.recs_perm.filter _
  have m1 : List.Perm (teams16.map fun t => recOf (SimulateRound ss) t.Seed)
      (((teams16.filter fun t => remOf ss t.Seed).map
          fun t => recOf (SimulateRound ss) t.Seed) ++
        ((teams16.filter fun t => !(remOf ss t.Seed)).map
          fun t => recOf (SimulateRound ss) t.Seed)) := by
    have hh := (List.filter_append_perm (fun t => remOf ss t.Seed) teams16).symm.map
      fun t => recOf (SimulateRound ss) t.Seed
    rwa [List.map_append] at hh
  have hrecs : List.Perm (teams16.map fun t => recOf (SimulateRound ss) t.Seed)
      (expectedRecords (k + 1)) := by
    refine (m1.trans ?_).trans hnext
    rw [m2, m3]
    exact List.Perm.append mact m4
  have hflags : ∀ t ∈ teams16,
      remOf (SimulateRound ss) t.Seed =
        decide ((recOf (SimulateRound ss) t.Seed).Wins < 3 ∧
          (recOf (SimulateRound ss) t.Seed).Losses < 3) ∧
      finOf (SimulateRound ss) t.Seed = !(remOf (SimulateRound ss) t.Seed) := by
    intro t ht
    by_cases hactive : remOf ss t.Seed = true
    · have htf : t ∈ flattenPairs (roundPairs ss) :=
        (hflat.mem_iff).2 (List.mem_filter.2 ⟨ht, hactive⟩)
      obtain ⟨q, hq, hor⟩ := flattenPairs_mem _ t htf
      have hsor : t.Seed = q.1.Seed ∨ t.Seed = q.2.Seed := by
        rcases hor with h | h
        · left; rw [h]
        · right; rw [h]
      have hfl := FS.pair_flags q hq t.Seed hsor
      have hq1mem := (mem_flattenPairs _ q hq).1
      have hq1act := hmemact q.1 hq1mem
      have hwl : (recOf ss q.1.Seed).Wins < 3 ∧ (recOf ss q.1.Seed).Losses < 3 :=
        of_decide_eq_true ((G.rem_eq q.1 hq1act.1).symm.trans hq1act.2)
      have hmem2 : recOf (SimulateRound ss) t.Seed ∈
          [winRec (recOf ss q.1.Seed), loseRec (recOf ss q.1.Seed)] := by
        have hp := FS.pair_recs q hq
        rcases hsor with h | h
        · rw [h]
          exact (hp.mem_iff).1 (by simp)
        · rw [h]
          exact (hp.mem_iff).1 (by simp)
      have hup3 : (recOf (SimulateRound ss) t.Seed).Wins ≤ 3 ∧
          (recOf (SimulateRound ss) t.Seed).Losses ≤ 3 ∧
          ¬((recOf (SimulateRound ss) t.Seed).Wins = 3 ∧
            (recOf (SimulateRound ss) t.Seed).Losses = 3) := by
        rcases List.mem_pair.1 hmem2 with h | h <;>
          rw [h] <;> simp only [winRec, loseRec] <;>
          exact ⟨by omega, by omega, by omega⟩
      obtain ⟨hW3, hL3, hnot33⟩ := hup3
      have hS0rem : remOf (prepRound ss) t.Seed = true := hactive
      have hS0fin : finOf (prepRound ss) t.Seed = false := by
        have hbf := G.fin_eq t ht
        rw [hactive] at hbf
        exact hbf
      constructor
      · rw [hfl.1, hS0rem]
        by_cases h3 : (recOf (SimulateRound ss) t.Seed).Wins = 3 ∨
            (recOf (SimulateRound ss) t.Seed).Losses = 3
        · have hnlt : ¬((recOf (SimulateRound ss) t.Seed).Wins < 3 ∧
              (recOf (SimulateRound ss) t.Seed).Losses < 3) := by omega
          rw [if_pos h3, decide_eq_false hnlt]
        · have hlt : (recOf (SimulateRound ss) t.Seed).Wins < 3 ∧
              (recOf (SimulateRound ss) t.Seed).Losses < 3 := by omega
          rw [if_neg h3, decide_eq_true hlt]
      · rw [hfl.2, hfl.1, hS0rem, hS0fin]
        by_cases h3 : (recOf (SimulateRound ss) t.Seed).Wins = 3 ∨
            (recOf (SimulateRound ss) t.Seed).Losses = 3
        · rw [if_pos h3, if_pos h3]
          rfl
        · rw [if_neg h3, if_neg h3]
          rfl
    · rw [Bool.not_eq_true] at hactive
      have hfr := FS.frame t.Seed (hinact_seed t hactive)
      constructor
      · rw [hfr.2.1, hfr.1]
        exact G.rem_eq t ht
      · rw [hfr.2.2, hfr.2.1]
        exact G.fin_eq t ht
  exact ⟨FS.teams_eq.trans G.teams_eq,
    FS.round_eq.trans (by rw [prepRound_Round, G.round_eq]),
    FS.len_rec.trans G.len_rec, FS.len_rem.trans G.len_rem,
    FS.len_fin.trans G.len_fin, hrecs,
    fun t ht => (hflags t ht).1, fun t ht => (hflags t ht).2⟩

/-! ### The five-round trajectory from Reset -/

theorem expectedRecords_high (n : ℕ) : expectedRecords (n + 5) = expectedRecords 5 := rfl

theorem expectedRecords_bounds (k : ℕ) :
    ∀ r ∈ expectedRecords k, r.Wins ≤ 3 ∧ r.Losses ≤ 3 ∧
      ¬(r.Wins = 3 ∧ r.Losses = 3) ∧ -3 ≤ r.Diff ∧ r.Diff ≤ 3 := by
  match k with
  | 0 => decide
  | 1 => decide
  | 2 => decide
  | 3 => decide
  | 4 => decide
  | n + 5 =>
    rw [expectedRecords_high]
    decide

theorem remainingCount_eq (k : ℕ) (ss : SwissSystem) (G : GoodState k ss) :
    remainingCount ss = (expectedRecords k).countP activeP := by
  unfold remainingCount
  rw [G.teams_eq]
  have hcongr : ∀ t ∈ teams16, (remOf ss t.Seed = true) ↔
      (activeP (recOf ss t.Seed) = true) := by
    intro t ht
    rw [G.rem_eq t ht]
    exact Iff.rfl
  rw [List.countP_congr hcongr]
  rw [show (fun t : Team => activeP (recOf ss t.Seed)) =
      (activeP ∘ fun t : Team => recOf ss t.Seed) from rfl]
  rw [← List.countP_map]
  exact G.recs_perm.countP_eq _

theorem simulateTournamentFuel_stable (fuel : ℕ) (ss : SwissSystem)
    (h : remainingCount ss = 0) : simulateTournamentFuel fuel ss = ss := by
  cases fuel with
  | zero => rfl
  | succ m =>
    unfold simulateTournamentFuel
    rw [if_pos h]

theorem simulateTournamentFuel_succ (fuel : ℕ) (ss : SwissSystem)
    (h : remainingCount ss ≠ 0) :
    simulateTournamentFuel (fuel + 1) ss =
      simulateTournamentFuel fuel (SimulateRound ss) := by
  unfold simulateTournamentFuel
  rw [if_neg h]
  cases fuel with
  | zero => rfl
  | succ m => rfl

/-- The invariant holds at every round boundary of the five-round
trajectory, for every probability matrix and every random stream. -/
theorem goodState_all (prob : ℕ → ℕ → ℚ) (rng : ℕ → ℚ) :
    ∀ k, k ≤ 5 → GoodState k (roundIter k (Reset (NewSwissSystem teams16 prob rng))) := by
  have hs : ∀ m, roundIter (m + 1) (Reset (NewSwissSystem teams16 prob rng)) =
      SimulateRound (roundIter m (Reset (NewSwissSystem teams16 prob rng))) :=
    fun m => Function.iterate_succ_apply' SimulateRound m _
  have g0 : GoodState 0 (roundIter 0 (Reset (NewSwissSystem teams16 prob rng))) :=
    goodState_zero prob rng
  have g1 : GoodState 1 (roundIter 1 (Reset (NewSwissSystem teams16 prob rng))) := by
    rw [hs 0]
    exact goodState_step 0 _ g0 ⟨0, 0⟩ ⟨0, 0⟩ ⟨0, 0⟩ (by decide) (by decide) (by decide)
      (by decide) (by decide) (by decide) (by decide)
  have g2 : GoodState 2 (roundIter 2 (Reset (NewSwissSystem teams16 prob rng))) := by
    rw [hs 1]
    exact goodState_step 1 _ g1 ⟨1, 0⟩ ⟨0, 0⟩ ⟨0, 1⟩ (by decide) (by decide) (by decide)
      (by decide) (by decide) (by decide) (by decide)
  have g3 : GoodState 3 (roundIter 3 (Reset (NewSwissSystem teams16 prob rng))) := by
    rw [hs 2]
    exact goodState_step 2 _ g2 ⟨2, 0⟩ ⟨1, 1⟩ ⟨0, 2⟩ (by decide) (by decide) (by decide)
      (by decide) (by decide) (by decide) (by decide)
  have g4 : GoodState 4 (roundIter 4 (Reset (NewSwissSystem teams16 prob rng))) := by
    rw [hs 3]
    exact goodState_step 3 _ g3 ⟨2, 1⟩ ⟨0, 0⟩ ⟨1, 2⟩ (by decide) (by decide) (by decide)
      (by decide) (by decide) (by decide) (by decide)
  have g5 : GoodState 5 (roundIter 5 (Reset (NewSwissSystem teams16 prob rng))) := by
    rw [hs 4]
    exact goodState_step 4 _ g4 ⟨0, 0⟩ ⟨2, 2⟩ ⟨0, 0⟩ (by decide) (by decide) (by decide)
      (by decide) (by decide) (by decide) (by decide)
  intro k hk
  interval_cases k
  · exact g0
  · exact g1
  · exact g2
  · exact g3
  · exact g4
  · exact g5

/-! ### Claim theorems: round-boundary invariants and termination -/

/-- **C2.** At every round boundary of a tournament started from `Reset`,
every team is active (`Remaining` true) exactly when it has fewer than 3
wins and fewer than 3 losses, is finished (`Finished` true) exactly when
its record has reached 3 wins or 3 losses, and its differential never
leaves the range [-3, 3] - for every probability matrix and random
stream. -/
theorem round_boundary_active_invariant (prob : ℕ → ℕ → ℚ) (rng : ℕ → ℚ)
    (k : ℕ) (hk : k ≤ 5) (t : Team) (ht : t ∈ teams16) :
    (remOf (roundIter k (Reset (NewSwissSystem teams16 prob rng))) t.Seed = true ↔
      (recOf (roundIter k (Reset (NewSwissSystem teams16 prob rng))) t.Seed).Wins < 3 ∧
        (recOf (roundIter k (Reset (NewSwissSystem teams16 prob rng))) t.Seed).Losses < 3) ∧
    (finOf (roundIter k (Reset (NewSwissSystem teams16 prob rng))) t.Seed = true ↔
      (recOf (roundIter k (Reset (NewSwissSystem teams16 prob rng))) t.Seed).Wins = 3 ∨
        (recOf (roundIter k (Reset (NewSwissSystem teams16 prob rng))) t.Seed).Losses = 3) ∧
    -3 ≤ (recOf (roundIter k (Reset (NewSwissSystem teams16 prob rng))) t.Seed).Diff ∧
    (recOf (roundIter k (Reset (NewSwissSystem teams16 prob rng))) t.Seed).Diff ≤ 3 := by
  have G := goodState_all prob rng k hk
  have hrecmem : recOf (roundIter k (Reset (NewSwissSystem teams16 prob rng))) t.Seed ∈
      expectedRecords k :=
    (G.recs_perm.mem_iff).1 (List.mem_map_of_mem _ ht)
  obtain ⟨hw3, hl3, hnot, hd1, hd2⟩ := expectedRecords_bounds k _ hrecmem
  refine ⟨?_, ?_, hd1, hd2⟩
  · rw [G.rem_eq t ht]
    exact decide_eq_true_iff
  · rw [G.fin_eq t ht, G.rem_eq t ht, Bool.not_eq_true', decide_eq_false_iff_not]
    constructor
    · intro hnp
      omega
    · intro hor
      omega

/-- Witness: the theorem applied at round boundary 5, team seed 1, with a
concrete probability matrix and stream. -/
theorem round_boundary_active_invariant_witness :
    (5 ≤ 5 ∧ (⟨1⟩ : Team) ∈ teams16) ∧
    ((remOf (roundIter 5 (Reset (NewSwissSystem teams16 probC rngC))) (Team.mk 1).Seed = true ↔
      (recOf (roundIter 5 (Reset (NewSwissSystem teams16 probC rngC))) (Team.mk 1).Seed).Wins < 3 ∧
        (recOf (roundIter 5 (Reset (NewSwissSystem teams16 probC rngC))) (Team.mk 1).Seed).Losses < 3) ∧
    (finOf (roundIter 5 (Reset (NewSwissSystem teams16 probC rngC))) (Team.mk 1).Seed = true ↔
      (recOf (roundIter 5 (Reset (NewSwissSystem teams16 probC rngC))) (Team.mk 1).Seed).Wins = 3 ∨
        (recOf (roundIter 5 (Reset (NewSwissSystem teams16 probC rngC))) (Team.mk 1).Seed).Losses = 3) ∧
    -3 ≤ (recOf (roundIter 5 (Reset (NewSwissSystem teams16 probC rngC))) (Team.mk 1).Seed).Diff ∧
    (recOf (roundIter 5 (Reset (NewSwissSystem teams16 probC rngC))) (Team.mk 1).Seed).Diff ≤ 3) :=
  ⟨⟨by decide, by decide⟩,
    round_boundary_active_invariant probC rngC 5 (by decide) ⟨1⟩ (by decide)⟩

/-- **C6.** From a `Reset` 16-team bracket the tournament loop finishes
after exactly five rounds: any fuel of at least 5 yields the 5-round
state, no team remains active there (so `SimulateNextRound` refuses to
advance), and every team ends with exactly one of 3 wins or 3 losses and
between 3 and 5 games played. -/
theorem tournament_terminates_in_five (prob : ℕ → ℕ → ℚ) (rng : ℕ → ℚ)
    (fuel : ℕ) (hf : 5 ≤ fuel) :
    simulateTournamentFuel fuel (Reset (NewSwissSystem teams16 prob rng)) =
      roundIter 5 (Reset (NewSwissSystem teams16 prob rng)) ∧
    remainingCount (roundIter 5 (Reset (NewSwissSystem teams16 prob rng))) = 0 ∧
    (SimulateNextRound (roundIter 5 (Reset (NewSwissSystem teams16 prob rng)))).1 = false ∧
    ∀ t ∈ teams16,
      ((recOf (roundIter 5 (Reset (NewSwissSystem teams16 prob rng))) t.Seed).Wins = 3 ↔
        ¬((recOf (roundIter 5 (Reset (NewSwissSystem teams16 prob rng))) t.Seed).Losses = 3)) ∧
      3 ≤ (recOf (roundIter 5 (Reset (NewSwissSystem teams16 prob rng))) t.Seed).Wins +
        (recOf (roundIter 5 (Reset (NewSwissSystem teams16 prob rng))) t.Seed).Losses ∧
      (recOf (roundIter 5 (Reset (NewSwissSystem teams16 prob rng))) t.Seed).Wins +
        (recOf (roundIter 5 (Reset (NewSwissSystem teams16 prob rng))) t.Seed).Losses ≤ 5 := by
  have G := goodState_all prob rng
  have hrc : ∀ k, k ≤ 5 →
      remainingCount (roundIter k (Reset (NewSwissSystem teams16 prob rng))) =
        (expectedRecords k).countP activeP :=
    fun k hk => remainingCount_eq k _ (G k hk)
  have hne : ∀ k, k < 5 →
      remainingCount (roundIter k (Reset (NewSwissSystem teams16 prob rng))) ≠ 0 := by
    intro k hk
    rw [hrc k (le_of_lt hk)]
    interval_cases k <;> decide
  have h5 : remainingCount (roundIter 5 (Reset (NewSwissSystem teams16 prob rng))) = 0 := by
    rw [hrc 5 (le_refl 5)]
    decide
  have hfuel : ∀ m, simulateTournamentFuel (m + 5) (Reset (NewSwissSystem teams16 prob rng)) =
      roundIter 5 (Reset (NewSwissSystem teams16 prob rng)) := by
    intro m
    calc simulateTournamentFuel (m + 5) (Reset (NewSwissSystem teams16 prob rng))
        = simulateTournamentFuel (m + 4)
            (SimulateRound (Reset (NewSwissSystem teams16 prob rng))) :=
          simulateTournamentFuel_succ _ _ (hne 0 (by omega))
      _ = simulateTournamentFuel (m + 3)
            (SimulateRound (SimulateRound (Reset (NewSwissSystem teams16 prob rng)))) :=
          simulateTournamentFuel_succ _ _ (hne 1 (by omega))
      _ = simulateTournamentFuel (m + 2)
            (SimulateRound (SimulateRound (SimulateRound
              (Reset (NewSwissSystem teams16 prob rng))))) :=
          simulateTournamentFuel_succ _ _ (hne 2 (by omega))
      _ = simulateTournamentFuel (m + 1)
            (SimulateRound (SimulateRound (SimulateRound (SimulateRound
              (Reset (NewSwissSystem teams16 prob rng)))))) :=
          simulateTournamentFuel_succ _ _ (hne 3 (by omega))
      _ = simulateTournamentFuel m
            (SimulateRound (SimulateRound (SimulateRound (SimulateRound (SimulateRound
              (Reset (NewSwissSystem teams16 prob rng))))))) :=
          simulateTournamentFuel_succ _ _ (hne 4 (by omega))
      _ = SimulateRound (SimulateRound (SimulateRound (SimulateRound (SimulateRound
              (Reset (NewSwissSystem teams16 prob rng)))))) :=
          simulateTournamentFuel_stable _ _ h5
      _ = roundIter 5 (Reset (NewSwissSystem teams16 prob rng)) := rfl
  obtain ⟨m, hm⟩ := Nat.exists_eq_add_of_le hf
  have hv : ∀ r ∈ expectedRecords 5, (r.Wins = 3 ↔ ¬(r.Losses = 3)) ∧
      3 ≤ r.Wins + r.Losses ∧ r.Wins + r.Losses ≤ 5 := by decide
  refine ⟨?_, h5, ?_, ?_⟩
  · rw [hm, Nat.add_comm]
    exact hfuel m
  · unfold SimulateNextRound
    rw [if_pos h5]
  · intro t ht
    exact hv _ (((G 5 (le_refl 5)).recs_perm.mem_iff).1 (List.mem_map_of_mem _ ht))

/-- Witness: the theorem applied with fuel exactly 5 and a concrete
probability matrix and stream. -/
theorem tournament_terminates_in_five_witness :
    5 ≤ 5 ∧
    (simulateTournamentFuel 5 (Reset (NewSwissSystem teams16 probC rngC)) =
      roundIter 5 (Reset (NewSwissSystem teams16 probC rngC)) ∧
    remainingCount (roundIter 5 (Reset (NewSwissSystem teams16 probC rngC))) = 0 ∧
    (SimulateNextRound (roundIter 5 (Reset (NewSwissSystem teams16 probC rngC)))).1 = false ∧
    ∀ t ∈ teams16,
      ((recOf (roundIter 5 (Reset (NewSwissSystem teams16 probC rngC))) t.Seed).Wins = 3 ↔
        ¬((recOf (roundIter 5 (Reset (NewSwissSystem teams16 probC rngC))) t.Seed).Losses = 3)) ∧
      3 ≤ (recOf (roundIter 5 (Reset (NewSwissSystem teams16 probC rngC))) t.Seed).Wins +
        (recOf (roundIter 5 (Reset (NewSwissSystem teams16 probC rngC))) t.Seed).Losses ∧
      (recOf (roundIter 5 (Reset (NewSwissSystem teams16 probC rngC))) t.Seed).Wins +
        (recOf (roundIter 5 (Reset (NewSwissSystem teams16 probC rngC))) t.Seed).Losses ≤ 5) :=
  ⟨by decide, tournament_terminates_in_five probC rngC 5 (by decide)⟩

theorem stateA_step1 :
    SimulateRound (Reset (NewSwissSystem teams16 probH rng0)) = stateA1 := by rfl

theorem stateA_step2 : SimulateRound stateA1 = stateA2 := by rfl

theorem stateA_step3 : SimulateRound stateA2 = stateA3 := by rfl

theorem stateA_step4 : SimulateRound stateA3 = stateA4 := by rfl

theorem stateA_step5 : SimulateRound stateA4 = stateA5 := by rfl

theorem stateB_step1 :
    SimulateRound (Reset (NewSwissSystem teams16 probH rng1)) = stateB1 := by rfl

theorem stateB_step2 : SimulateRound stateB1 = stateB2 := by rfl

theorem stateB_step3 : SimulateRound stateB2 = stateB3 := by rfl

theorem stateB_step4 : SimulateRound stateB3 = stateB4 := by rfl

theorem stateB_step5 : SimulateRound stateB4 = stateB5 := by rfl

/-- The `rng0` batch tournament lands on `stateA5`. -/
theorem tournamentA :
    simulateTournamentFuel 5 (Reset (NewSwissSystem teams16 probH rng0)) = stateA5 := by
  calc simulateTournamentFuel 5 (Reset (NewSwissSystem teams16 probH rng0))
      = simulateTournamentFuel 4 (SimulateRound (Reset (NewSwissSystem teams16 probH rng0))) :=
        simulateTournamentFuel_succ 4 _ (by decide)
    _ = simulateTournamentFuel 4 stateA1 := by rw [stateA_step1]
    _ = simulateTournamentFuel 3 (SimulateRound stateA1) :=
        simulateTournamentFuel_succ 3 _ (by decide)
    _ = simulateTournamentFuel 3 stateA2 := by rw [stateA_step2]
    _ = simulateTournamentFuel 2 (SimulateRound stateA2) :=
        simulateTournamentFuel_succ 2 _ (by decide)
    _ = simulateTournamentFuel 2 stateA3 := by rw [stateA_step3]
    _ = simulateTournamentFuel 1 (SimulateRound stateA3) :=
        simulateTournamentFuel_succ 1 _ (by decide)
    _ = simulateTournamentFuel 1 stateA4 := by rw [stateA_step4]
    _ = simulateTournamentFuel 0 (SimulateRound stateA4) :=
        simulateTournamentFuel_succ 0 _ (by decide)
    _ = simulateTournamentFuel 0 stateA5 := by rw [stateA_step5]
    _ = stateA5 := rfl

/-- The `rng1` batch tournament lands on `stateB5`. -/
theorem tournamentB :
    simulateTournamentFuel 5 (Reset (NewSwissSystem teams16 probH rng1)) = stateB5 := by
  calc simulateTournamentFuel 5 (Reset (NewSwissSystem teams16 probH rng1))
      = simulateTournamentFuel 4 (SimulateRound (Reset (NewSwissSystem teams16 probH rng1))) :=
        simulateTournamentFuel_succ 4 _ (by decide)
    _ = simulateTournamentFuel 4 stateB1 := by rw [stateB_step1]
    _ = simulateTournamentFuel 3 (SimulateRound stateB1) :=
        simulateTournamentFuel_succ 3 _ (by decide)
    _ = simulateTournamentFuel 3 stateB2 := by rw [stateB_step2]
    _ = simulateTournamentFuel 2 (SimulateRound stateB2) :=
        simulateTournamentFuel_succ 2 _ (by decide)
    _ = simulateTournamentFuel 2 stateB3 := by rw [stateB_step3]
    _ = simulateTournamentFuel 1 (SimulateRound stateB3) :=
        simulateTournamentFuel_succ 1 _ (by decide)
    _ = simulateTournamentFuel 1 stateB4 := by rw [stateB_step4]
    _ = simulateTournamentFuel 0 (SimulateRound stateB4) :=
        simulateTournamentFuel_succ 0 _ (by decide)
    _ = simulateTournamentFuel 0 stateB5 := by rw [stateB_step5]
    _ = stateB5 := rfl

/-- Under `rng0`, seed 1 finishes the tournament 3-0. -/
theorem clsA : classifyAll stateA5 1 = some Category.Cat3_0 := by decide

/-- Under `rng1`, seed 1 finishes the tournament 0-3. -/
theorem clsB : classifyAll stateB5 1 = some Category.Cat0_3 := by decide

/-- `Run` with two workers merges the two batches pointwise, each batch
sized by its worker index but driven by the stream its worker drew in
mutex-arrival order. -/
theorem RunSched_two_apply (teams : List Team) (prob : ℕ → ℕ → ℚ)
    (streams : ℕ → ℕ → ℚ) (fuel n : ℕ) (preds : List Prediction)
    (sched : ℕ → ℕ) (s : ℕ) (c : Category) :
    (RunSched teams prob streams fuel n 2 preds sched).1 s c =
      (Batch teams prob (streams (sched 0)) fuel (batchSizeGo n 2 0) preds).1 s c +
        (Batch teams prob (streams (sched 1)) fuel (batchSizeGo n 2 1) preds).1 s c := by
  show 0 + (Batch teams prob (streams (sched 0)) fuel (batchSizeGo n 2 0) preds).1 s c +
      (Batch teams prob (streams (sched 1)) fuel (batchSizeGo n 2 1) preds).1 s c = _
  omega

/-- With worker 0 first at the mutex, the single run uses stream 0 and
seed 1 is counted once under 3-0. -/
theorem runSchedId_seed1 :
    (RunSched teams16 probH streamsC 5 1 2 predsC schedId).1 1 Category.Cat3_0 = 1 := by
  rw [RunSched_two_apply]
  have e1 : (Batch teams16 probH (streamsC (schedId 0)) 5 (batchSizeGo 1 2 0) predsC).1
        1 Category.Cat3_0 =
      0 + if (seedsOf teams16).contains 1 ∧
          classifyAll (simulateTournamentFuel 5 (Reset (NewSwissSystem teams16 probH rng0)))
            1 = some Category.Cat3_0 then 1 else 0 := rfl
  have e2 : (Batch teams16 probH (streamsC (schedId 1)) 5 (batchSizeGo 1 2 1) predsC).1
      1 Category.Cat3_0 = 0 := rfl
  rw [e1, e2, tournamentA, clsA]
  decide

/-- With worker 1 first at the mutex, the single run uses stream 1 and
seed 1 is never counted under 3-0. -/
theorem runSchedSwap_seed1 :
    (RunSched teams16 probH streamsC 5 1 2 predsC schedSwap).1 1 Category.Cat3_0 = 0 := by
  rw [RunSched_two_apply]
  have e1 : (Batch teams16 probH (streamsC (schedSwap 0)) 5 (batchSizeGo 1 2 0) predsC).1
        1 Category.Cat3_0 =
      0 + if (seedsOf teams16).contains 1 ∧
          classifyAll (simulateTournamentFuel 5 (Reset (NewSwissSystem teams16 probH rng1)))
            1 = some Category.Cat3_0 then 1 else 0 := rfl
  have e2 : (Batch teams16 probH (streamsC (schedSwap 1)) 5 (batchSizeGo 1 2 1) predsC).1
      1 Category.Cat3_0 = 0 := rfl
  rw [e1, e2, tournamentB, clsB]
  decide

/-- **C7.** [counterexample] With the same master-derived streams, worker
count K = 2 and run count N = 1, the aggregate per-team category counts of
`Run` depend on the order in which the workers reach the seed-drawing
mutex: batch sizes follow the worker index while streams follow arrival
order, so when N is not a multiple of K the pairing of stream and size -
and with it the aggregate - changes with the schedule. -/
theorem run_schedule_dependence :
    (RunSched teams16 probH streamsC 5 1 2 predsC schedId).1 1 Category.Cat3_0 ≠
      (RunSched teams16 probH streamsC 5 1 2 predsC schedSwap).1 1 Category.Cat3_0 := by
  rw [runSchedId_seed1, runSchedSwap_seed1]
  decide

end MajorSim

